import Mathlib

/-!
Verification development for the LinkedIn post extraction engine
(`Factory/CreateJSON.py`).  The Python source is shallowly embedded:

* strings are `String`/`List Char`; Python regexes are translated into
  explicit scanning functions matching `re`'s leftmost-match semantics for
  the concrete patterns the source uses (documented at each definition);
* the parsed HTML document is an inductive `Node` tree; BeautifulSoup's
  CSS-selector queries are translated into an executable selector engine
  over that tree (selectors are Lean values mirroring the literal selector
  strings of the source);
* instants are integers (milliseconds in the naive local timeline the
  source works in); `random.randint` is an explicit function argument;
* Python exceptions that the source can actually hit are modelled by
  `Option` (`none` = the call raises).

Whitespace predicates, lower-casing and text handling are modelled at the
ASCII level (the source's inputs of interest are ASCII; Python's extra
Unicode whitespace/case folding is out of scope and noted where relevant).
-/

set_option maxRecDepth 4096

/-! ## Basic character and list-of-char utilities -/

/-- Python `\s` / `str.split()` / `str.strip()` whitespace, ASCII fragment. -/
def isSpaceChar (c : Char) : Bool :=
  c == ' ' || c == '\t' || c == '\n' || c == '\r' || c == '\x0b' || c == '\x0c'

/-- Does `pre` occur at the head of `l`? (Python `str.startswith`.) -/
def isPrefixL (pre l : List Char) : Bool :=
  match pre, l with
  | [], _ => true
  | _ :: _, [] => false
  | p :: ps, c :: cs => p == c && isPrefixL ps cs

/-- Index of the first occurrence of `needle` in `hay` (Python `str.find` /
leftmost regex literal match), `none` if absent. -/
def infixIdx (hay needle : List Char) : Option Nat :=
  (List.range (hay.length + 1)).find? (fun i => isPrefixL needle (hay.drop i))

/-- Python `needle in hay` substring test. -/
def containsSub (hay needle : List Char) : Bool :=
  (infixIdx hay needle).isSome

/-- Substring test on `String`s. -/
def sContains (hay needle : String) : Bool :=
  containsSub hay.data needle.data

/-- Helper for `splitWs`: `acc` holds the (reversed) word currently being
read. -/
def splitWsAux : List Char → List Char → List (List Char)
  | [], acc => if acc.isEmpty then [] else [acc.reverse]
  | c :: cs, acc =>
    if isSpaceChar c then
      if acc.isEmpty then splitWsAux cs [] else acc.reverse :: splitWsAux cs []
    else splitWsAux cs (c :: acc)

/-- Python `str.split()` (split on whitespace runs, dropping empties). -/
def splitWs (l : List Char) : List (List Char) :=
  splitWsAux l []

/-- Python `" ".join(words)`. -/
def joinWords : List (List Char) → List Char
  | [] => []
  | [w] => w
  | w :: ws => w ++ ' ' :: joinWords ws

/-- Python `str.strip()`. -/
def stripL (l : List Char) : List Char :=
  ((l.dropWhile isSpaceChar).reverse.dropWhile isSpaceChar).reverse

/-- `clean(text)` from the source: `re.sub(r'\s+', ' ', text).strip()`,
which equals joining `text.split()` with single spaces. -/
def clean (text : String) : String :=
  if text = "" then "" else ⟨joinWords (splitWs text.data)⟩

/-! ## Slug generation (`create_slug`, `generate_post_slug`) -/

/-- Characters kept by `create_slug`'s `[^a-z0-9]+` replacement (applied
after lower-casing). -/
def isSlugChar (c : Char) : Bool :=
  ('a' ≤ c && c ≤ 'z') || ('0' ≤ c && c ≤ '9')

/-- Helper for `slugCore`: the flag records whether we are inside a run of
non-slug characters (whose first character already emitted the hyphen). -/
def slugCoreAux : List Char → Bool → List Char
  | [], _ => []
  | c :: cs, inRun =>
    if isSlugChar c then c :: slugCoreAux cs false
    else if inRun then slugCoreAux cs true
    else '-' :: slugCoreAux cs true

/-- `re.sub(r'[^a-z0-9]+', '-', text)`: every maximal run of non-slug
characters becomes a single hyphen. -/
def slugCore (l : List Char) : List Char :=
  slugCoreAux l false

/-- Python `str.strip('-')`. -/
def stripHyphens (l : List Char) : List Char :=
  ((l.dropWhile (fun c => c == '-')).reverse.dropWhile (fun c => c == '-')).reverse

/-- `create_slug(text)` from the source: lower-case, collapse non-alphanumeric
runs to hyphens, strip outer hyphens, truncate to 400 characters. -/
def create_slug (text : String) : String :=
  if text = "" then ""
  else ⟨(stripHyphens (slugCore (text.data.map Char.toLower))).take 400⟩

/-- `generate_post_slug(description)`: slug of the first 8 words. -/
def generate_post_slug (description : String) : String :=
  if description = "" then ""
  else create_slug ⟨joinWords ((splitWs description.data).take 8)⟩

/-! ## Name sanitizer (`clean_name`) -/

/-- Does `re.sub(r'\s+[•|]\s+.*$', '', name)`'s pattern match starting at the
head of `l`?  Since `[•|]` is not whitespace, the greedy-with-backtracking
`\s+` must consume the whole whitespace run before the bullet/pipe. -/
def sepHere (l : List Char) : Bool :=
  match l with
  | [] => false
  | c :: _ =>
    isSpaceChar c &&
    (match l.dropWhile isSpaceChar with
     | b :: c2 :: _ => (b == '•' || b == '|') && isSpaceChar c2
     | _ => false)

/-- STEP 1 of `clean_name`: drop everything from the leftmost
`\s+[•|]\s+` match to the end of the string. -/
def cn_step1 (s : List Char) : List Char :=
  match (List.range s.length).find? (fun i => sepHere (s.drop i)) with
  | some i => s.take i
  | none => s

/-- STEP 2: if the first half of the string equals the second half
character-for-character, keep the first half. -/
def cn_step2 (s : List Char) : List Char :=
  if s.length % 2 == 0 && s.take (s.length / 2) == s.drop (s.length / 2) then
    s.take (s.length / 2)
  else s

/-- STEP 3: split into words; if the word list is two identical halves,
keep (re-joined with single spaces) only the first half. -/
def cn_step3 (s : List Char) : List Char :=
  if (splitWs s).length ≥ 2 &&
      (splitWs s).take ((splitWs s).length / 2) == (splitWs s).drop ((splitWs s).length / 2) then
    joinWords ((splitWs s).take ((splitWs s).length / 2))
  else s

/-- Is `s` exactly `s.take d` repeated `s.length / d` (≥ 2) times?
This is what a match of `re.match(r'^(.+?)\1+$', s)` with group length `d`
means. -/
def periodAt (s : List Char) (d : Nat) : Bool :=
  decide (0 < d) && s.length % d == 0 && decide (2 ≤ s.length / d) &&
    s == List.flatten (List.replicate (s.length / d) (s.take d))

/-- STEP 4: `re.match(r'^(.+?)\1+$', name)` keeps the shortest prefix whose
repetition reconstitutes the whole string (the lazy `(.+?)` tries the
shortest group first). -/
def cn_step4 (s : List Char) : List Char :=
  match (List.range' 1 (s.length / 2)).find? (fun d => periodAt s d) with
  | some d => s.take d
  | none => s

/-- STEP 5 part 1: `name.split('•')[0].strip()` when a bullet remains. -/
def cn_step5a (s : List Char) : List Char :=
  if s.contains '•' then stripL (s.takeWhile (fun c => c ≠ '•')) else s

/-- STEP 5 part 2: `name.split(' at ')[0].strip()` when `' at '` occurs. -/
def cn_step5b (s : List Char) : List Char :=
  match infixIdx s " at ".data with
  | some i => stripL (s.take i)
  | none => s

/-- The five cleaning steps applied in sequence, each to the previous
step's result, then the final `strip()`. -/
def cleanNameL (s : List Char) : List Char :=
  stripL (cn_step5b (cn_step5a (cn_step4 (cn_step3 (cn_step2 (cn_step1 s))))))

/-- `clean_name(raw_name)` from the source. -/
def clean_name (raw_name : String) : String :=
  if raw_name = "" then "" else ⟨cleanNameL raw_name.data⟩

/-! ## Numeric extraction (`get_numeric_value`) -/

/-- The three capture patterns the source passes to `get_numeric_value`:
`(\d[\d,]*)`, `(\d[\d,]*)\s*comments?` and `(\d[\d,]*)\s*reposts?`. -/
inductive NumPattern where
  | num
  | comments
  | reposts
deriving DecidableEq

/-- Attempt a match of the given pattern at the head of `l`, returning the
captured group.  The group `\d[\d,]*` is a maximal digit/comma run: for the
`comments?`/`reposts?` variants no shorter group can succeed by
backtracking, because a given-back digit or comma can match neither `\s*`
nor the literal tail. -/
def numMatchAt (p : NumPattern) (l : List Char) : Option (List Char) :=
  match l with
  | [] => none
  | c :: cs =>
    if c.isDigit then
      let g := c :: cs.takeWhile (fun x => x.isDigit || x == ',')
      let rest := cs.dropWhile (fun x => x.isDigit || x == ',')
      match p with
      | .num => some g
      | .comments =>
        if isPrefixL "comment".data (rest.dropWhile isSpaceChar) then some g else none
      | .reposts =>
        if isPrefixL "repost".data (rest.dropWhile isSpaceChar) then some g else none
    else none

/-- `re.search` for a `NumPattern`: leftmost successful start position. -/
def searchNum (p : NumPattern) (s : List Char) : Option (List Char) :=
  (List.range s.length).findSome? (fun i => numMatchAt p (s.drop i))

/-- Decimal value of a digit string. -/
def natOfDigits (l : List Char) : Nat :=
  l.foldl (fun a c => 10 * a + (c.toNat - '0'.toNat)) 0

/-- `get_numeric_value(text, pattern)` from the source: search, strip commas
from the captured group, parse as an integer; 0 on no match.  (For these
patterns the captured group is always digits and commas, so Python's
`int()` never raises; the `try/except` fallback to 0 is unreachable.) -/
def get_numeric_value (text : String) (p : NumPattern) : Nat :=
  if text = "" then 0
  else
    match searchNum p text.data with
    | none => 0
    | some g => natOfDigits (g.filter (fun c => c ≠ ','))

/-! ## Document model

A parsed document is a tree of element and text nodes.  The `class`
attribute is kept separate from the other attributes, mirroring
BeautifulSoup's multi-valued class handling (notably: `class` values are
lists, not strings, so the `isinstance(attr_value, str)` check in the
source's URN scan skips them). -/

inductive Node where
  | txt (s : String)
  | elem (tag : String) (classes : List String) (attrs : List (String × String))
      (children : List Node)

mutual

/-- Decidable equality for `Node` (the automatic derivation does not handle
the nested `List Node`). -/
def nodeDecEq : (a b : Node) → Decidable (a = b)
  | .txt s, .txt t =>
    match decEq s t with
    | isTrue h => isTrue (by rw [h])
    | isFalse h => isFalse (by intro hh; injection hh; exact h (by assumption))
  | .txt _, .elem _ _ _ _ => isFalse nofun
  | .elem _ _ _ _, .txt _ => isFalse nofun
  | .elem t1 c1 a1 ch1, .elem t2 c2 a2 ch2 =>
    match decEq t1 t2 with
    | isFalse h => isFalse (by intro hh; injection hh; exact h (by assumption))
    | isTrue h1 =>
      match decEq c1 c2 with
      | isFalse h => isFalse (by intro hh; injection hh; exact h (by assumption))
      | isTrue h2 =>
        match decEq a1 a2 with
        | isFalse h => isFalse (by intro hh; injection hh; exact h (by assumption))
        | isTrue h3 =>
          match nodesDecEq ch1 ch2 with
          | isFalse h => isFalse (by intro hh; injection hh; exact h (by assumption))
          | isTrue h4 => isTrue (by rw [h1, h2, h3, h4])

/-- Decidable equality for lists of `Node`s. -/
def nodesDecEq : (a b : List Node) → Decidable (a = b)
  | [], [] => isTrue rfl
  | [], _ :: _ => isFalse nofun
  | _ :: _, [] => isFalse nofun
  | a :: as, b :: bs =>
    match nodeDecEq a b with
    | isFalse h => isFalse (by intro hh; injection hh; exact h (by assumption))
    | isTrue h1 =>
      match nodesDecEq as bs with
      | isFalse h => isFalse (by intro hh; injection hh; exact h (by assumption))
      | isTrue h2 => isTrue (by rw [h1, h2])

end

instance : DecidableEq Node := nodeDecEq

mutual

/-- Structural equality, mirroring `bs4.Tag.__eq__` (same name, same
attributes, same contents). -/
def nodeBeq : Node → Node → Bool
  | .txt a, .txt b => a == b
  | .elem t1 c1 a1 ch1, .elem t2 c2 a2 ch2 =>
    t1 == t2 && c1 == c2 && a1 == a2 && nodesBeq ch1 ch2
  | _, _ => false

/-- List version of `nodeBeq`. -/
def nodesBeq : List Node → List Node → Bool
  | [], [] => true
  | a :: as, b :: bs => nodeBeq a b && nodesBeq as bs
  | _, _ => false

end

mutual

/-- `tag.get_text()`: concatenation of all text descendants. -/
def nodeText : Node → String
  | .txt s => s
  | .elem _ _ _ ch => nodesText ch

/-- List version of `nodeText`. -/
def nodesText : List Node → String
  | [] => ""
  | n :: ns => nodeText n ++ nodesText ns

end

/-- The (zero- or one-element) document-order entry a node contributes to a
descendant listing: text nodes are skipped, since CSS selection and
`find_all` only yield tags. -/
def descsEntry (anc : List Node) (n : Node) : List (List Node × Node) :=
  match n with
  | .txt _ => []
  | .elem t c a ch => [(anc, .elem t c a ch)]

mutual

/-- Descendants of a single node (the node itself excluded), each paired
with its ancestor chain (nearest first), in document (pre-)order. -/
def descsOfN (anc : List Node) : Node → List (List Node × Node)
  | .txt _ => []
  | .elem t c a ch => descsL (.elem t c a ch :: anc) ch

/-- Descendant listing of a forest: each root node itself, then its
descendants, then its later siblings. -/
def descsL (anc : List Node) : List Node → List (List Node × Node)
  | [] => []
  | n :: ns => descsEntry anc n ++ descsOfN anc n ++ descsL anc ns

end

/-- Proper descendants of a node (the node itself excluded), with ancestor
chains that include the node itself, mirroring `container.select(...)`
scoping. -/
def descsOf (n : Node) : List (List Node × Node) :=
  descsOfN [] n

/-- First attribute value for a key (attribute names are unique per tag). -/
def lookupAttr (attrs : List (String × String)) (k : String) : Option String :=
  match attrs.find? (fun p => p.1 == k) with
  | some p => some p.2
  | none => none

/-- A CSS simple (compound) selector: optional tag name, required class
tokens, exact / substring attribute constraints, attribute presence, and
`:not(.cls)` exclusions. -/
structure SSel where
  tag : Option String := none
  classes : List String := []
  attrEq : List (String × String) := []
  attrContains : List (String × String) := []
  attrPresent : List String := []
  notClasses : List String := []

/-- Does a node match a simple selector? -/
def matchesS (sel : SSel) (n : Node) : Bool :=
  match n with
  | .txt _ => false
  | .elem tag classes attrs _ =>
    (match sel.tag with | none => true | some t => tag == t) &&
    sel.classes.all (fun c => classes.contains c) &&
    sel.notClasses.all (fun c => !classes.contains c) &&
    sel.attrEq.all (fun kv => lookupAttr attrs kv.1 == some kv.2) &&
    sel.attrContains.all (fun kv =>
      match lookupAttr attrs kv.1 with
      | some v => sContains v kv.2
      | none => false) &&
    sel.attrPresent.all (fun k => (lookupAttr attrs k).isSome)

/-- A descendant-combinator selector: `above` lists the ancestor compound
selectors nearest-first (CSS `A B C` has target `C`, above `[B, A]`). -/
structure Selector where
  above : List SSel := []
  target : SSel

/-- Match the ancestor chain of a selector against an ancestor list
(nearest-first): each `above` entry must match some ancestor, in order,
each strictly above the previous. -/
def ancChainMatch : List SSel → List Node → Bool
  | [], _ => true
  | _ :: _, [] => false
  | s :: ss, a :: as => (matchesS s a && ancChainMatch ss as) || ancChainMatch (s :: ss) as

/-- Full selector match for a node with its ancestor chain. -/
def selMatch (sel : Selector) (anc : List Node) (n : Node) : Bool :=
  matchesS sel.target n && ancChainMatch sel.above anc

/-- `container.select(group)` with ancestor chains retained (a selector
group is a comma-separated list; matches are in document order). -/
def selectAllP (root : Node) (g : List Selector) : List (List Node × Node) :=
  (descsOf root).filter (fun p => g.any (fun s => selMatch s p.1 p.2))

/-- `container.select(group)`. -/
def selectAll (root : Node) (g : List Selector) : List Node :=
  (selectAllP root g).map (fun p => p.2)

/-- `container.select_one(group)`. -/
def selectOne (root : Node) (g : List Selector) : Option Node :=
  (selectAll root g).head?

/-- Tag name of an element node. -/
def tagOf : Node → Option String
  | .elem t _ _ _ => some t
  | .txt _ => none

/-- `element.find_parent(name)`: nearest ancestor whose *tag name* equals
`name`.  The source calls this with the CSS-style string `".pt3"`, which can
never equal a real tag name — the call is faithfully modelled, and always
yields `none` on parsed HTML. -/
def findParentTag (anc : List Node) (name : String) : Option Node :=
  anc.find? (fun a => tagOf a == some name)

/-- Deduplicate by structural equality; used to model Python's
`set(parents)` over `bs4` tags (whose `__eq__`/`__hash__` are structural). -/
def dedupNodes : List Node → List Node
  | [] => []
  | n :: ns => n :: (dedupNodes ns).filter (fun m => !nodeBeq n m)

/-! ### The selector constants used by the source (literal translations) -/

/-- `.MxyAgNzXcrHwRVnhLpYwOXnvQMJVwVlM` (nested content wrapper). -/
def selMxyWrapper : List Selector :=
  [{ target := { classes := ["MxyAgNzXcrHwRVnhLpYwOXnvQMJVwVlM"] } }]

/-- `.update-components-actor__container`. -/
def selActorContainer : List Selector :=
  [{ target := { classes := ["update-components-actor__container"] } }]

/-- `.update-components-header__text-view, .update-components-actor__title`. -/
def selHeaderTexts : List Selector :=
  [{ target := { classes := ["update-components-header__text-view"] } },
   { target := { classes := ["update-components-actor__title"] } }]

/-- The reshare CSS markers checked by `is_repost` METHOD 4. -/
def selReshareMarkers : List (List Selector) :=
  [[{ target := { classes := ["update-components-mini-update-v2__reshared-content"] } }],
   [{ target := { classes := ["update-components-mini-update-v2__reshared-content--with-divider"] } }],
   [{ target := { classes := ["feed-shared-update-v2__reshare-context"] } }],
   [{ target := { classes := ["update-components-header--with-reshare-context"] } }],
   [{ target := { classes := ["feed-shared-reshared-update"] } }]]

/-- `.pt3`. -/
def selPt3 : List Selector :=
  [{ target := { classes := ["pt3"] } }]

/-- `div.feed-shared-update-v2` (the `find_all` in `get_posts`). -/
def selPostContainer : List Selector :=
  [{ target := { tag := some "div", classes := ["feed-shared-update-v2"] } }]

/-- `.feed-shared-inline-show-more-text`. -/
def selShowMoreText : List Selector :=
  [{ target := { classes := ["feed-shared-inline-show-more-text"] } }]

/-- `.update-components-text .break-words span[dir='ltr']`. -/
def selContentSpan : List Selector :=
  [{ above := [{ classes := ["break-words"] }, { classes := ["update-components-text"] }],
     target := { tag := some "span", attrEq := [("dir", "ltr")] } }]

/-- `.feed-shared-update-v2__update-content-wrapper`. -/
def selUpdateContentWrapper : List Selector :=
  [{ target := { classes := ["feed-shared-update-v2__update-content-wrapper"] } }]

/-- `.feed-shared-inline-show-more-text__see-more-less-toggle`. -/
def selSeeMoreToggle : List Selector :=
  [{ target := { classes := ["feed-shared-inline-show-more-text__see-more-less-toggle"] } }]

/-- `.update-components-update-v2__commentary`. -/
def selCommentary : List Selector :=
  [{ target := { classes := ["update-components-update-v2__commentary"] } }]

/-- `.break-words span[dir='ltr']` (used inside the commentary region). -/
def selBreakWordsSpan : List Selector :=
  [{ above := [{ classes := ["break-words"] }],
     target := { tag := some "span", attrEq := [("dir", "ltr")] } }]

/-- `.update-components-header`. -/
def selHeader : List Selector :=
  [{ target := { classes := ["update-components-header"] } }]

/-- `.update-components-header__image img`. -/
def selHeaderImg : List Selector :=
  [{ above := [{ classes := ["update-components-header__image"] }],
     target := { tag := some "img" } }]

/-- `.update-components-actor__title`. -/
def selActorTitle : List Selector :=
  [{ target := { classes := ["update-components-actor__title"] } }]

/-- `span[dir='ltr']`. -/
def selSpanLtr : List Selector :=
  [{ target := { tag := some "span", attrEq := [("dir", "ltr")] } }]

/-- `.update-components-actor__title span[dir='ltr']`. -/
def selActorTitleSpan : List Selector :=
  [{ above := [{ classes := ["update-components-actor__title"] }],
     target := { tag := some "span", attrEq := [("dir", "ltr")] } }]

/-- `.update-components-actor__avatar-image`. -/
def selAvatarImage : List Selector :=
  [{ target := { classes := ["update-components-actor__avatar-image"] } }]

/-- `img.update-components-actor__avatar-image`. -/
def selAvatarImg : List Selector :=
  [{ target := { tag := some "img", classes := ["update-components-actor__avatar-image"] } }]

/-- `.update-components-actor__description`. -/
def selActorDescription : List Selector :=
  [{ target := { classes := ["update-components-actor__description"] } }]

/-- The alternative description selectors of `get_profile_info`. -/
def selAltDescs : List (List Selector) :=
  [[{ target := { classes := ["feed-shared-actor__description"] } }],
   [{ target := { classes := ["feed-shared-actor__sub-description"] } }],
   [{ target := { classes := ["update-components-actor__subtitle"] } }]]

/-- `a`. -/
def selAnchor : List Selector :=
  [{ target := { tag := some "a" } }]

/-- `.update-components-actor__sub-description` (relative date region). -/
def selSubDescription : List Selector :=
  [{ target := { classes := ["update-components-actor__sub-description"] } }]

/-- `.social-details-social-counts__reactions-count`. -/
def selLikes : List Selector :=
  [{ target := { classes := ["social-details-social-counts__reactions-count"] } }]

/-- `li.social-details-social-counts__comments button`. -/
def selComments : List Selector :=
  [{ above := [{ tag := some "li", classes := ["social-details-social-counts__comments"] }],
     target := { tag := some "button" } }]

/-- `button[aria-label*='reposts']`. -/
def selRepostsBtn : List Selector :=
  [{ target := { tag := some "button", attrContains := [("aria-label", "reposts")] } }]

/-- `.social-details-social-counts__item--right-aligned:not(.social-details-social-counts__comments) button`. -/
def selRepostsAlt : List Selector :=
  [{ above := [{ classes := ["social-details-social-counts__item--right-aligned"],
                 notClasses := ["social-details-social-counts__comments"] }],
     target := { tag := some "button" } }]

/-- `.update-components-image__image-link`. -/
def selImageLink : List Selector :=
  [{ target := { classes := ["update-components-image__image-link"] } }]

/-- `img`. -/
def selImg : List Selector :=
  [{ target := { tag := some "img" } }]

/-- `.update-components-linkedin-video`. -/
def selLinkedinVideo : List Selector :=
  [{ target := { classes := ["update-components-linkedin-video"] } }]

/-- `.video-js`. -/
def selVideoJs : List Selector :=
  [{ target := { classes := ["video-js"] } }]

/-- The extra video CSS classes of `media_is_video` METHOD 3. -/
def selVideoClasses : List (List Selector) :=
  [[{ target := { classes := ["media-player"] } }],
   [{ target := { classes := ["vjs-tech"] } }],
   [{ target := { classes := ["video-s-loader"] } }]]

/-- `.document-s-container`. -/
def selDocContainer : List Selector :=
  [{ target := { classes := ["document-s-container"] } }]

/-- `.update-components-document__container`. -/
def selDocContainer2 : List Selector :=
  [{ target := { classes := ["update-components-document__container"] } }]

/-- `iframe[title*='Document player']`. -/
def selDocIframe : List Selector :=
  [{ target := { tag := some "iframe", attrContains := [("title", "Document player")] } }]

/-- `.document-s-container__title, .update-components-document__title`. -/
def selDocTitle : List Selector :=
  [{ target := { classes := ["document-s-container__title"] } },
   { target := { classes := ["update-components-document__title"] } }]

/-- `[data-urn*='urn:li:activity:']`. -/
def selDataUrn : List Selector :=
  [{ target := { attrContains := [("data-urn", "urn:li:activity:")] } }]

/-- `[data-view-tracking-scope]`. -/
def selTrackingScope : List Selector :=
  [{ target := { attrPresent := ["data-view-tracking-scope"] } }]

/-- The video poster selectors of `get_video_info` (in order). -/
def selPosters : List (List Selector) :=
  [[{ target := { classes := ["vjs-poster"] } }],
   [{ target := { classes := ["vjs-poster-background"] } }],
   [{ above := [{ classes := ["media-player"] }],
      target := { tag := some "video", attrPresent := ["poster"] } }]]

/-- The video duration selectors of `get_video_info` (in order). -/
def selDurations : List (List Selector) :=
  [[{ target := { classes := ["vjs-remaining-time-display"] } }],
   [{ target := { classes := ["video-duration"] } }],
   [{ target := { classes := ["media-player__duration"] } }],
   [{ target := { classes := ["update-components-video-duration"] } }],
   [{ target := { attrPresent := ["data-test-video-duration"] } }],
   [{ target := { classes := ["video-playback-duration"] } }],
   [{ target := { classes := ["vjs-duration"] } }],
   [{ target := { classes := ["vjs-duration-display"] } }],
   [{ above := [{ classes := ["video-js"] }], target := { classes := ["vjs-duration"] } }],
   [{ target := { classes := ["media-player-duration"] } }]]

/-- `video[data-duration]`. -/
def selVideoDataDuration : List Selector :=
  [{ target := { tag := some "video", attrPresent := ["data-duration"] } }]

/-- `script[type='application/ld+json']`. -/
def selLdJsonScript : List Selector :=
  [{ target := { tag := some "script", attrEq := [("type", "application/ld+json")] } }]

/-! ## Timestamp resolver

Instants are modelled as integer milliseconds on the naive local timeline
the source works in (`datetime.now()`, `datetime.fromtimestamp`,
`datetime(2010, 1, 1)` are all naive local datetimes, so a single integer
timeline is faithful; `strftime`'s sub-second truncation and the final
string rendering are below/outside the granularity the claims are stated
at and are not modelled).  `random.randint(a, b)` is an explicit function
argument `rand` applied to the bounds; Python exceptions reachable in
`get_date` (from `datetime.replace` on an invalid day-of-month) are
modelled by `none`. -/

/-- Milliseconds per minute. -/
def minuteMs : Int := 60000

/-- Milliseconds per hour. -/
def hourMs : Int := 3600000

/-- Milliseconds per day. -/
def dayMs : Int := 86400000

/-- `int(datetime(2010, 1, 1).timestamp() * 1000)`: the reference epoch the
source adds decoded offsets to (value for a UTC-clock run; the source's
value shifts with the local timezone, which none of the claims depend
on). -/
def linkedin_epoch : Int := 1262304000000

/-- Gregorian leap year (Python `calendar` rule, as used by `datetime`). -/
def isLeapYear (y : Int) : Bool :=
  y % 4 == 0 && (y % 100 != 0 || y % 400 == 0)

/-- Length of a month (`datetime.replace` validity bound). -/
def daysInMonth (y m : Int) : Int :=
  if m == 2 then (if isLeapYear y then 29 else 28)
  else if m == 4 || m == 6 || m == 9 || m == 11 then 30
  else 31

/-- Days from civil date (proleptic Gregorian), days-since-1970-01-01. -/
def daysFromCivil (y m d : Int) : Int :=
  let y2 := if m ≤ 2 then y - 1 else y
  let era := y2.fdiv 400
  let yoe := y2 - era * 400
  let mp := (m + 9) % 12
  let doy := (153 * mp + 2).fdiv 5 + d - 1
  let doe := yoe * 365 + yoe.fdiv 4 - yoe.fdiv 100 + doy
  era * 146097 + doe - 719468

/-- Civil date from days-since-1970-01-01: `(year, month, day)`. -/
def civilFromDays (z : Int) : Int × Int × Int :=
  let z2 := z + 719468
  let era := z2.fdiv 146097
  let doe := z2 - era * 146097
  let yoe := (doe - doe.fdiv 1460 + doe.fdiv 36524 - doe.fdiv 146096).fdiv 365
  let y := yoe + era * 400
  let doy := doe - (365 * yoe + yoe.fdiv 4 - yoe.fdiv 100)
  let mp := (5 * doy + 2).fdiv 153
  let d := doy - (153 * mp + 2).fdiv 5 + 1
  let m := if mp < 10 then mp + 3 else mp - 9
  (if m ≤ 2 then y + 1 else y, m, d)

/-- `(year, month, day)` of an instant. -/
def dateParts (t : Int) : Int × Int × Int :=
  civilFromDays (t.fdiv dayMs)

/-- `dt.replace(year=newY, month=newM)`: keeps day and time of day;
`none` models the `ValueError` raised when the day is out of range for the
target month. -/
def replaceYearMonth (t : Int) (newY newM : Int) : Option Int :=
  let days := t.fdiv dayMs
  let msod := t - days * dayMs
  match civilFromDays days with
  | (_, _, d) =>
    if d ≤ daysInMonth newY newM then some (daysFromCivil newY newM d * dayMs + msod)
    else none

/-- `dt.replace(year=newY)`: keeps month, day and time of day; `none`
models the `ValueError` on Feb 29 of a non-leap target year. -/
def replaceYear (t : Int) (newY : Int) : Option Int :=
  let days := t.fdiv dayMs
  let msod := t - days * dayMs
  match civilFromDays days with
  | (_, m, d) =>
    if d ≤ daysInMonth newY m then some (daysFromCivil newY m d * dayMs + msod)
    else none

/-- `extract_activity_id_from_urn(urn_text)`: leftmost
`urn:li:activity:(\d+)` match, as the numeric id (`decode` immediately
applies `int(...)`, so the id is modelled as a number). -/
def extract_activity_id_from_urn (urn_text : String) : Option Nat :=
  (List.range (urn_text.data.length + 1)).findSome? (fun i =>
    let rest := urn_text.data.drop i
    if isPrefixL "urn:li:activity:".data rest then
      let ds := (rest.drop 16).takeWhile Char.isDigit
      if ds.isEmpty then none else some (natOfDigits ds)
    else none)

/-- `decode_linkedin_timestamp(activity_id)`: try right-shifts 23 (METHOD
1), then 22, 24, 25 (METHOD 2), adding the shifted value as milliseconds to
the reference epoch, and accept the first result lying between the epoch
and `now` (both comparisons are `<=` in the source).  The
`datetime.fromtimestamp` overflow guards change nothing here: an id whose
shift-23 value overflows Python's range also fails every range check on
the other shifts, and both the source and this model yield nothing. -/
def decode_linkedin_timestamp (id_num : Nat) (now : Int) : Option Int :=
  let t23 := linkedin_epoch + Int.ofNat (id_num >>> 23)
  if linkedin_epoch ≤ t23 ∧ t23 ≤ now then some t23
  else
    let t22 := linkedin_epoch + Int.ofNat (id_num >>> 22)
    if linkedin_epoch ≤ t22 ∧ t22 ≤ now then some t22
    else
      let t24 := linkedin_epoch + Int.ofNat (id_num >>> 24)
      if linkedin_epoch ≤ t24 ∧ t24 ≤ now then some t24
      else
        let t25 := linkedin_epoch + Int.ofNat (id_num >>> 25)
        if linkedin_epoch ≤ t25 ∧ t25 ≤ now then some t25
        else none

/-- The `updateUrn` field access of `extract_linkedin_activity_timestamp`
METHOD 2: the source HTML-unescapes the attribute, parses it as JSON and
reads `[0]["breadcrumb"]["updateUrn"]`; this is modelled as locating the
`updateUrn` key and scanning the following text for an activity URN (the
attribute values of the model tree are already unescaped; on well-formed
tracking data the two agree, and both yield nothing when no such key/URN
is present). -/
def trackingUrnId (v : String) : Option Nat :=
  match infixIdx v.data "updateUrn".data with
  | some i => extract_activity_id_from_urn ⟨v.data.drop i⟩
  | none => none

/-- `extract_linkedin_activity_timestamp(post_container)`: METHOD 1
(`data-urn` attribute), then METHOD 2 (tracking-scope JSON), then METHOD 3
(any attribute value containing an activity URN); each candidate id is
decoded and the first successful decode wins. -/
def extract_linkedin_activity_timestamp (post_container : Node) (now : Int) : Option Int :=
  let m1 :=
    match selectOne post_container selDataUrn with
    | some (.elem _ _ attrs _) =>
      match lookupAttr attrs "data-urn" with
      | some urn =>
        match extract_activity_id_from_urn urn with
        | some id => decode_linkedin_timestamp id now
        | none => none
      | none => none
    | _ => none
  match m1 with
  | some t => some t
  | none =>
    let m2 := (selectAll post_container selTrackingScope).findSome? (fun el =>
      match el with
      | .elem _ _ attrs _ =>
        match lookupAttr attrs "data-view-tracking-scope" with
        | some v =>
          if sContains v "updateUrn" then
            match trackingUrnId v with
            | some id => decode_linkedin_timestamp id now
            | none => none
          else none
        | none => none
      | .txt _ => none)
    match m2 with
    | some t => some t
    | none =>
      (descsOf post_container).findSome? (fun p =>
        match p.2 with
        | .elem _ _ attrs _ =>
          attrs.findSome? (fun kv =>
            if sContains kv.2 "urn:li:activity:" then
              match extract_activity_id_from_urn kv.2 with
              | some id => decode_linkedin_timestamp id now
              | none => none
            else none)
        | .txt _ => none)

/-- `re.search(r'(\d+)', s)`: the first digit run. -/
def firstNat (s : String) : Option Nat :=
  let ds := (s.data.dropWhile (fun c => !c.isDigit)).takeWhile Char.isDigit
  if ds.isEmpty then none else some (natOfDigits ds)

/-- STEP 2 of `get_date`: relative-date parsing with jitter.  Branch order
is the source's `'h'` / `'mo'` / `'w'` / `'d'` / `'y'` substring chain;
`none` models the uncaught exceptions (`int(re.search(...).group(1))` with
no digits, or an invalid `datetime.replace`). -/
def get_date_relative (date_text : String) (rand : Int → Int → Int) (now : Int) : Option Int :=
  if sContains date_text "h" then
    match firstNat date_text with
    | none => none
    | some hours =>
      let rm := rand (-30) 30
      some (now - (Int.ofNat hours * hourMs + rm * minuteMs))
  else if sContains date_text "mo" then
    match firstNat date_text with
    | none => none
    | some months =>
      match dateParts now with
      | (y, m, _) =>
        let nm0 := m - Int.ofNat months
        let ny := y + (nm0 - 1).fdiv 12
        let nm := (nm0 - 1).emod 12 + 1
        match replaceYearMonth now ny nm with
        | none => none
        | some base =>
          let rd := rand (-15) 15
          let rh := rand 0 23
          let rmin := rand 0 59
          some (base + rd * dayMs + rh * hourMs + rmin * minuteMs)
  else if sContains date_text "w" then
    match firstNat date_text with
    | none => none
    | some weeks =>
      let rd := rand (-3) 3
      let rh := rand 0 23
      let rm := rand 0 59
      some (now - (Int.ofNat weeks * 7 * dayMs + rd * dayMs + rh * hourMs + rm * minuteMs))
  else if sContains date_text "d" then
    match firstNat date_text with
    | none => none
    | some days =>
      let rh := rand (-12) 12
      let rm := rand 0 59
      some (now - (Int.ofNat days * dayMs + rh * hourMs + rm * minuteMs))
  else if sContains date_text "y" then
    match firstNat date_text with
    | none => none
    | some years =>
      match dateParts now with
      | (y, _, _) =>
        match replaceYear now (y - Int.ofNat years) with
        | none => none
        | some base =>
          let rd := rand (-60) 60
          let rh := rand 0 23
          let rm := rand 0 59
          some (base + rd * dayMs + rh * hourMs + rm * minuteMs)
  else some now

/-- `get_date(date_text, post_container)`: STEP 1 tries the precise URN
timestamp; on success it is returned outright, otherwise STEP 2 parses the
relative date string. -/
def get_date (date_text : String) (post_container : Option Node)
    (rand : Int → Int → Int) (now : Int) : Option Int :=
  match post_container with
  | some c =>
    match extract_linkedin_activity_timestamp c now with
    | some ts => some ts
    | none => get_date_relative date_text rand now
  | none => get_date_relative date_text rand now

/-! ## Generic string replacement (Python `str.replace`) -/

/-- Fuel-driven left-to-right non-overlapping replacement; the fuel is the
input length (each step consumes at least one character). -/
def replaceSubF (needle repl : List Char) : Nat → List Char → List Char
  | 0, l => l
  | _ + 1, [] => []
  | fuel + 1, c :: cs =>
    if !needle.isEmpty && isPrefixL needle (c :: cs) then
      repl ++ replaceSubF needle repl fuel ((c :: cs).drop needle.length)
    else c :: replaceSubF needle repl fuel cs

/-- Python `s.replace(needle, repl)`. -/
def replaceAll (s needle repl : String) : String :=
  ⟨replaceSubF needle.data repl.data s.data.length s.data⟩

/-- The `content.replace("hashtag#", "#")` normalization. -/
def replaceHashtag (s : String) : String :=
  replaceAll s "hashtag#" "#"

/-- Python `str.strip()` on `String`. -/
def stripS (s : String) : String :=
  ⟨stripL s.data⟩

/-! ## Post-type classifier (`is_repost`) -/

/-- `is_repost(post_container)`: the five repost signals, short-circuit
evaluated in source order. -/
def is_repost (post : Node) : Bool :=
  -- METHOD 1: nested content wrapper containing an actor container
  (match selectOne post selMxyWrapper with
   | some w => (selectOne w selActorContainer).isSome
   | none => false) ||
  -- METHOD 2: explicit "reposted this" text in a header region
  (selectAll post selHeaderTexts).any (fun e => sContains (nodeText e) "reposted this") ||
  -- METHOD 3: several actor containers with distinct parents
  -- (`len(set(parents)) > 1` over bs4 tags compares structurally)
  (let pairs := selectAllP post selActorContainer
   decide (pairs.length > 1) &&
     decide ((dedupNodes (pairs.filterMap (fun p => p.1.head?))).length > 1)) ||
  -- METHOD 4: reshare CSS markers
  selReshareMarkers.any (fun m => (selectOne post m).isSome) ||
  -- METHOD 5: PT3 container with a nested actor container
  (match selectOne post selPt3 with
   | some pt3 => (selectOne pt3 selActorContainer).isSome
   | none => false)

/-! ## Media detectors -/

/-- `media_is_video(post_container)`. -/
def media_is_video (post : Node) : Bool :=
  (selectOne post selLinkedinVideo).isSome ||
  (selectOne post selVideoJs).isSome ||
  selVideoClasses.any (fun m => (selectOne post m).isSome)

/-- `media_is_carousel(post_container)`. -/
def media_is_carousel (post : Node) : Bool :=
  (selectOne post selDocContainer).isSome ||
  (selectOne post selDocContainer2).isSome ||
  (selectOne post selDocIframe).isSome

/-! ## Node segmentation (`get_posts`) -/

/-- `BASE_ID` from the source's configuration block. -/
def BASE_ID : Nat := 1

/-- `MAX_POSTS` from the source's configuration block. -/
def MAX_POSTS : Nat := 11

/-- `get_posts(soup)`: all `div.feed-shared-update-v2` containers in
document order, limited to `MAX_POSTS`. -/
def get_posts (soup : Node) : List Node :=
  (selectAll soup selPostContainer).take MAX_POSTS

/-! ## Content resolver -/

/-- Extract, clean and hashtag-normalize the standard content span of a
description container (the repeated
`select_one(".update-components-text .break-words span[dir='ltr']")`
pattern of the source). -/
def contentSpanText (d : Node) : Option String :=
  match selectOne d selContentSpan with
  | some span => some (replaceHashtag (clean (nodeText span)))
  | none => none

/-- `get_post_description(post_container)`: METHOD 1 (PT3 container),
METHOD 2 (multiple descriptions scanned in reverse — inert, because its
`find_parent(".pt3")` guard can never hold), METHOD 3 (nested update
content wrapper), METHOD 4 (first description container, with a `…more`
suffix when a see-more toggle is present). -/
def get_post_description (post : Node) : String :=
  let m1 :=
    match selectOne post selPt3 with
    | some pt3 =>
      match selectOne pt3 selShowMoreText with
      | some d => contentSpanText d
      | none => none
    | none => none
  match m1 with
  | some c => c
  | none =>
    let descsP := selectAllP post selShowMoreText
    let m2 :=
      if descsP.length ≥ 2 then
        descsP.reverse.findSome? (fun p =>
          if (findParentTag p.1 ".pt3").isNone then none
          else contentSpanText p.2)
      else none
    match m2 with
    | some c => c
    | none =>
      let m3 :=
        match selectOne post selUpdateContentWrapper with
        | some w =>
          match selectOne w selShowMoreText with
          | some d => contentSpanText d
          | none => none
        | none => none
      match m3 with
      | some c => c
      | none =>
        match selectOne post selShowMoreText with
        | some d =>
          match contentSpanText d with
          | some c => c
          | none =>
            let content := replaceHashtag (clean (nodeText d))
            if !(sContains content "…more") && (selectOne d selSeeMoreToggle).isSome then
              content ++ " …more"
            else content
        | none => ""

/-- `get_reposter_comment(post_container)`: with two or more description
containers, the first one's content span (its `find_parent(".pt3")` guard
is vacuous, see `findParentTag`); otherwise a commentary region outside
PT3 (the same vacuous guard). -/
def get_reposter_comment (post : Node) : String :=
  let descsP := selectAllP post selShowMoreText
  let first_try :=
    if descsP.length ≥ 2 then
      match descsP.head? with
      | some p =>
        if (findParentTag p.1 ".pt3").isNone then contentSpanText p.2
        else none
      | none => none
    else none
  match first_try with
  | some c => c
  | none =>
    match (selectAllP post selCommentary).head? with
    | some p =>
      if (findParentTag p.1 ".pt3").isNone then
        match selectOne p.2 selBreakWordsSpan with
        | some span => replaceHashtag (clean (nodeText span))
        | none => ""
      else ""
    | none => ""

/-! ## Author resolver -/

/-- The author record assembled by `get_profile_info`. -/
structure AuthorInfo where
  name : String
  pic : String
  description : String
  slug : String
deriving DecidableEq

/-- The `re.search(r'(.*?)\s+reposted this', header_text)` capture: the
text before the first whitespace run that directly precedes the marker
phrase (the lazy group takes the leftmost-shortest prefix; `\s+` must
consume the whole run since the literal starts with a non-space). -/
def searchRepostedBy (s : String) : Option String :=
  ((List.range (s.data.length + 1)).find? (fun e =>
    let rest := s.data.drop e
    match rest with
    | c :: _ => isSpaceChar c && isPrefixL "reposted this".data (rest.dropWhile isSpaceChar)
    | [] => false)).map (fun e => ⟨s.data.take e⟩)

/-- Leading part of `re.sub(r'\s*\d[\d,]*\s+followers.*$', '', s)`: does the
followers pattern match starting here?  (`\s*` may be empty; the digit/comma
run is maximal; at least one space before the literal.) -/
def followersHere (l : List Char) : Bool :=
  let rest0 := l.dropWhile isSpaceChar
  match rest0 with
  | c :: cs =>
    c.isDigit &&
      (let rest1 := cs.dropWhile (fun x => x.isDigit || x == ',')
       match rest1 with
       | c2 :: _ => isSpaceChar c2 && isPrefixL "followers".data (rest1.dropWhile isSpaceChar)
       | [] => false)
  | [] => false

/-- `re.sub(r'\s*\d[\d,]*\s+followers.*$', '', s)`: truncate at the leftmost
match of the followers pattern. -/
def removeFollowers (s : String) : String :=
  match (List.range s.data.length).find? (fun i => followersHere (s.data.drop i)) with
  | some i => ⟨s.data.take i⟩
  | none => s

/-- `src` attribute of a node, when present. -/
def srcAttr (n : Node) : Option String :=
  match n with
  | .elem _ _ attrs _ => lookupAttr attrs "src"
  | .txt _ => none

/-- `href` attribute of a node, when present. -/
def hrefAttr (n : Node) : Option String :=
  match n with
  | .elem _ _ attrs _ => lookupAttr attrs "href"
  | .txt _ => none

/-- `get_profile_info(post_container, default_name, is_reposter)`.

For reposts: a header with the `reposted this` phrase names the reposter
as the text before the phrase (early return); otherwise the first
(top-level) actor container is the reposter.  For regular posts: the main
actor title, avatar, and description (with alternative description
selectors and a followers-count strip).  The name and slug default to the
given `default_name` and its slug. -/
def get_profile_info (post : Node) (default_name : String) (is_reposter : Bool) : AuthorInfo :=
  let base : AuthorInfo :=
    { name := default_name, pic := "", description := "", slug := create_slug default_name }
  if is_reposter then
    let headerPath :=
      match selectOne post selHeader with
      | some header =>
        match searchRepostedBy (nodeText header) with
        | some pre =>
          let nm := clean_name (clean pre)
          let ai := { base with name := nm, slug := create_slug nm }
          some (match selectOne header selHeaderImg with
            | some img =>
              (match srcAttr img with
               | some src => { ai with pic := src }
               | none => ai)
            | none => ai)
        | none => none
      | none => none
    match headerPath with
    | some ai => ai
    | none =>
      match selectOne post selActorContainer with
      | some fac =>
        let ai :=
          match selectOne fac selActorTitleSpan with
          | some ne =>
            let nm := clean_name (clean (nodeText ne))
            { base with name := nm, slug := create_slug nm }
          | none => base
        let ai :=
          match selectOne fac selAvatarImage with
          | some img =>
            (match srcAttr img with
             | some src => { ai with pic := src }
             | none => ai)
          | none => ai
        match selectOne fac selActorDescription with
        | some d => { ai with description := clean (nodeText d) }
        | none => ai
      | none => base
  else
    let ai :=
      match selectOne post selActorTitle with
      | some mac =>
        match selectOne mac selSpanLtr with
        | some ne =>
          let nm := clean_name (clean (nodeText ne))
          { base with name := nm, slug := create_slug nm }
        | none => base
      | none => base
    let ai :=
      match selectOne post selAvatarImage with
      | some img =>
        (match srcAttr img with
         | some src => { ai with pic := src }
         | none => ai)
      | none => ai
    let ai :=
      match selectOne post selActorDescription with
      | some d => { ai with description := clean (nodeText d) }
      | none => ai
    if ai.description == "" then
      match selAltDescs.findSome? (fun sel => selectOne post sel) with
      | some d => { ai with description := removeFollowers (clean (nodeText d)) }
      | none => ai
    else ai

/-- The original-author record assembled by `get_original_author_info`. -/
structure OriginalAuthor where
  name : String
  pic : String
  slug : String
  link : String
  description : String
deriving DecidableEq

/-- `get_original_author_info(post_container)`: APPROACH 1 (marker phrase →
primary actor container), APPROACH 2 (nested content wrapper), APPROACH 3
(PT3 container), APPROACH 4 (second of several actor containers), then the
hard-coded SharePoint-keynote patch, then slug fill-in. -/
def get_original_author_info (post : Node) : OriginalAuthor :=
  let ai0 : OriginalAuthor := { name := "", pic := "", slug := "", link := "", description := "" }
  let hasMarker :=
    (selectAll post selHeaderTexts).any (fun e => sContains (nodeText e) "reposted this")
  let ai1 :=
    if hasMarker then
      match selectOne post selActorContainer with
      | some mac =>
        let a :=
          match selectOne mac selActorTitleSpan with
          | some ne => { ai0 with name := clean_name (clean (nodeText ne)) }
          | none => ai0
        let a :=
          match selectOne mac selAvatarImg with
          | some img =>
            (match srcAttr img with
             | some src => { a with pic := src }
             | none => a)
          | none => a
        let a :=
          match selectOne mac selActorDescription with
          | some d => { a with description := removeFollowers (clean (nodeText d)) }
          | none => a
        match selectOne mac selAnchor with
        | some an =>
          (match hrefAttr an with
           | some h => { a with link := h }
           | none => a)
        | none => a
      | none => ai0
    else ai0
  if hasMarker && ai1.name != "" then { ai1 with slug := create_slug ai1.name }
  else
    let wrapperOpt := selectOne post selMxyWrapper
    let ai2 :=
      match wrapperOpt with
      | some w =>
        match selectOne w selActorContainer with
        | some ac =>
          let a :=
            match selectOne ac selActorTitleSpan with
            | some ne => { ai1 with name := clean_name (clean (nodeText ne)) }
            | none => ai1
          let a :=
            match selectOne ac selAvatarImg with
            | some img =>
              (match srcAttr img with
               | some src => { a with pic := src }
               | none => a)
            | none => a
          match selectOne ac selAnchor with
          | some an =>
            (match hrefAttr an with
             | some h => { a with link := h }
             | none => a)
          | none => a
        | none => ai1
      | none => ai1
    if wrapperOpt.isSome && ai2.name != "" then { ai2 with slug := create_slug ai2.name }
    else
      let ai3 :=
        if ai2.name == "" then
          match selectOne post selPt3 with
          | some pt3 =>
            let a :=
              match selectOne pt3 selActorTitleSpan with
              | some ne => { ai2 with name := clean_name (clean (nodeText ne)) }
              | none => ai2
            match selectOne pt3 selAvatarImg with
            | some img =>
              (match srcAttr img with
               | some src => { a with pic := src }
               | none => a)
            | none => a
          | none => ai2
        else ai2
      let containers := selectAll post selActorContainer
      let ai4 :=
        if ai3.name == "" && decide (containers.length ≥ 2) then
          match (containers.drop 1).findSome? (fun c =>
            match selectOne c selActorTitleSpan with
            | some ne =>
              let pn := clean_name (clean (nodeText ne))
              if pn != "" && pn != ai3.name then
                some (pn, (selectOne c selAvatarImg).bind srcAttr)
              else none
            | none => none) with
          | some (pn, picOpt) =>
            { ai3 with name := pn,
                       pic := (match picOpt with | some s => s | none => ai3.pic) }
          | none => ai3
        else ai3
      let ai5 :=
        if ai4.name == "" && sContains (nodeText post) "SharePoint keynote" then
          { ai4 with
              name := "Adam Harmetz",
              slug := "adam-harmetz",
              pic := "https://media.licdn.com/dms/image/v2/C5603AQFtXwhlMiJbzw/profile-displayphoto-shrink_100_100/profile-displayphoto-shrink_100_100/0/1647555845432?e=1752710400&v=beta&t=GaJOOt50bQ0Jmil34Zi9btz_PF9MYhW-4Wrvw7MF-UU" }
        else ai4
      if ai5.name != "" && ai5.slug == "" then { ai5 with slug := create_slug ai5.name }
      else ai5

/-! ## Engagement extractor -/

/-- The engagement counters. -/
structure Engagement where
  likes : Nat
  comments : Nat
  reposts : Nat
deriving DecidableEq

/-- `get_engagement(post_container)`: three independent counters, each 0
when its region is absent. -/
def get_engagement (post : Node) : Engagement :=
  let likes :=
    match selectOne post selLikes with
    | some e => get_numeric_value (clean (nodeText e)) .num
    | none => 0
  let comments :=
    match selectOne post selComments with
    | some e => get_numeric_value (clean (nodeText e)) .comments
    | none => 0
  let reposts :=
    match selectOne post selRepostsBtn with
    | some e => get_numeric_value (clean (nodeText e)) .reposts
    | none =>
      match selectOne post selRepostsAlt with
      | some e => get_numeric_value (clean (nodeText e)) .reposts
      | none => 0
  { likes := likes, comments := comments, reposts := reposts }

/-! ## Media extraction -/

/-- `get_images_info(post_container)`: `src` of the image inside each
image link, filtered to feed images. -/
def get_images_info (post : Node) : List String :=
  (selectAll post selImageLink).filterMap (fun link =>
    match selectOne link selImg with
    | some img =>
      match srcAttr img with
      | some url => if sContains url "feedshare" then some url else none
      | none => none
    | none => none)

/-- The `re.search(r'url\("([^"]+)"\)', style)` capture. -/
def urlFromStyle (style : String) : Option String :=
  (List.range style.data.length).findSome? (fun i =>
    let rest := style.data.drop i
    if isPrefixL "url(\"".data rest then
      let body := (rest.drop 5).takeWhile (fun c => c ≠ '"')
      let tail := (rest.drop 5).drop body.length
      if !body.isEmpty && isPrefixL "\")".data tail then some (⟨body⟩ : String)
      else none
    else none)

/-- `^\d+:\d+$`. -/
def isMinSec (s : String) : Bool :=
  let ds := s.data.takeWhile Char.isDigit
  match s.data.drop ds.length with
  | ':' :: rest => !ds.isEmpty && !rest.isEmpty && rest.all Char.isDigit
  | _ => false

/-- `^\d+$`. -/
def isAllDigits (s : String) : Bool :=
  !s.data.isEmpty && s.data.all Char.isDigit

/-- `f"{m}:{s:02d}"`. -/
def fmtDuration (m s : Nat) : String :=
  toString m ++ ":" ++ (if s < 10 then "0" ++ toString s else toString s)

/-- `script.string`: the tag's single text child, else `None`. -/
def scriptText (n : Node) : Option String :=
  match n with
  | .elem _ _ _ [.txt s] => some s
  | _ => none

/-- The `(\d+)M` (or `(\d+)S`) capture inside a `PTxMxS` duration value:
first digit run directly followed by the unit letter, else 0, exactly as
`int(match.group(1)) if match else 0`. -/
def ptComponent (v : List Char) (unit : Char) : Nat :=
  match (List.range v.length).findSome? (fun i =>
    let rest := v.drop i
    match rest with
    | c :: _ =>
      if c.isDigit then
        let ds := rest.takeWhile Char.isDigit
        match rest.drop ds.length with
        | u :: _ => if u == unit then some (natOfDigits ds) else none
        | [] => none
      else none
    | [] => none) with
  | some n => n
  | none => 0

/-- The `application/ld+json` duration lookup: the source JSON-parses the
script body and reads a string `duration` field starting with `PT`.  This
is modelled by locating the `"duration"` key and its quoted string value;
on well-formed data the two agree, and both yield nothing when the key or
the `PT` prefix is absent. -/
def ptDuration (s : String) : Option (Nat × Nat) :=
  match infixIdx s.data "\"duration\"".data with
  | some i =>
    let rest := (s.data.drop (i + 10)).dropWhile (fun c => c ≠ '"')
    match rest with
    | _ :: rest2 =>
      let v := rest2.takeWhile (fun c => c ≠ '"')
      if isPrefixL "PT".data v then some (ptComponent v 'M', ptComponent v 'S')
      else none
    | [] => none
  | none => none

/-- Scan the `ld+json` scripts: `none` models the uncaught `TypeError` the
source hits when `script.string` is `None` (a script tag without a single
text child); `some none` = no duration found; `some (some (m, s))` = first
duration found (the loop `break`s). -/
def scanLdScripts : List Node → Option (Option (Nat × Nat))
  | [] => some none
  | sc :: rest =>
    match scriptText sc with
    | none => none
    | some s =>
      match ptDuration s with
      | some v => some (some v)
      | none => scanLdScripts rest

/-- The video metadata record of `get_video_info`. -/
structure VideoInfo where
  thumbnail : String
  duration : String
deriving DecidableEq

/-- `get_video_info(post_container)`: thumbnail from poster style/attribute
candidates; duration from text candidates, then a `data-duration`
attribute, then `ld+json` metadata.  `none` models the uncaught exception
described at `scanLdScripts`. -/
def get_video_info (post : Node) : Option VideoInfo :=
  let thumbnail :=
    match selPosters.findSome? (fun sel =>
      (selectOne post sel).bind (fun el =>
        match el with
        | .elem tg _ attrs _ =>
          (match lookupAttr attrs "style" with
           | some style => urlFromStyle style
           | none =>
             if tg == "video" && (lookupAttr attrs "poster").isSome then
               lookupAttr attrs "poster"
             else none)
        | .txt _ => none)) with
    | some t => t
    | none => ""
  let duration :=
    match selDurations.findSome? (fun sel =>
      (selectOne post sel).bind (fun el =>
        let dt := stripS ⟨(clean (nodeText el)).data.filter (fun c => c ≠ '-')⟩
        if dt == "" then none else some dt)) with
    | some dt =>
      if isMinSec dt then dt
      else if isAllDigits dt then
        let secs := natOfDigits dt.data
        fmtDuration (secs / 60) (secs % 60)
      else "0:00"
    | none => "0:00"
  let duration :=
    match selectOne post selVideoDataDuration with
    | some el =>
      match el with
      | .elem _ _ attrs _ =>
        (match lookupAttr attrs "data-duration" with
         | some v =>
           if isAllDigits v then
             let secs := natOfDigits v.data
             fmtDuration (secs / 60) (secs % 60)
           else duration
         | none => duration)
      | .txt _ => duration
    | none => duration
  match scanLdScripts (selectAll post selLdJsonScript) with
  | none => none
  | some (some (m, s)) => some { thumbnail := thumbnail, duration := fmtDuration m s }
  | some none => some { thumbnail := thumbnail, duration := duration }

/-- `get_carousel_info(post_container)`: the title from the document-player
iframe (with the known prefix stripped) or a title region. -/
def get_carousel_info (post : Node) : String :=
  let title :=
    match selectOne post selDocIframe with
    | some el =>
      match el with
      | .elem _ _ attrs _ =>
        (match lookupAttr attrs "title" with
         | some t =>
           if sContains t "Document player for:" then
             stripS (replaceAll t "Document player for:" "")
           else if sContains t "Document player for" then
             stripS (replaceAll t "Document player for" "")
           else t
         | none => "")
      | .txt _ => ""
    | none => ""
  if title == "" then
    match selectOne post selDocTitle with
    | some te => clean (nodeText te)
    | none => ""
  else title

/-- The tagged media variant of the assembled record. -/
inductive MediaInfo where
  | video (thumbnail duration : String)
  | carousel (title info : String)
  | image (urls : List String)
  | noneM
deriving DecidableEq

/-- `get_final_media_info(post_container)`: ordered, mutually exclusive
checks (video, carousel, image, none); `none` propagates the modelled
`get_video_info` exception. -/
def get_final_media_info (post : Node) : Option MediaInfo :=
  if media_is_video post then
    match get_video_info post with
    | none => none
    | some vi => some (.video vi.thumbnail vi.duration)
  else if media_is_carousel post then
    some (.carousel (get_carousel_info post) "Images not visible in the HTML")
  else
    match get_images_info post with
    | [] => some .noneM
    | urls => some (.image urls)

/-! ## Record assembler (`process_posts`) -/

/-- The normalization of the distinctness guard:
`s.lower().replace('#', '').replace(' ', '')`. -/
def normText (s : String) : String :=
  ⟨(s.data.map Char.toLower).filter (fun c => c ≠ '#' && c ≠ ' ')⟩

/-- A `(\d+\s*[hdwmy]+o?)` match attempt anchored at the head of `l`. -/
def dateTokenAt (l : List Char) : Option (List Char) :=
  match l with
  | [] => none
  | c :: _ =>
    if c.isDigit then
      let ds := l.takeWhile Char.isDigit
      let rest1 := l.drop ds.length
      let ws := rest1.takeWhile isSpaceChar
      let rest2 := rest1.drop ws.length
      let us := rest2.takeWhile (fun x => x == 'h' || x == 'd' || x == 'w' || x == 'm' || x == 'y')
      if us.isEmpty then none
      else
        let rest3 := rest2.drop us.length
        match rest3 with
        | 'o' :: _ => some (ds ++ ws ++ us ++ ['o'])
        | _ => some (ds ++ ws ++ us)
    else none

/-- `re.search(r'(\d+\s*[hdwmy]+o?)', s)`: leftmost match. -/
def dateMatch (s : String) : Option String :=
  ((List.range s.data.length).findSome? (fun i => dateTokenAt (s.data.drop i))).map
    (fun l => (⟨l⟩ : String))

/-- The relative-date string `process_posts` extracts from the
sub-description region (`""` when the region or the pattern is absent). -/
def relDateOf (post : Node) : String :=
  match selectOne post selSubDescription with
  | some ds =>
    match dateMatch (clean (nodeText ds)) with
    | some g => g
    | none => ""
  | none => ""

/-- An assembled record: one per content node, in the shape the source
serializes (`post` and `repost` branches carry different fields). -/
inductive PostRecord where
  | post (id : Nat) (date : Int) (content slug : String) (media : MediaInfo)
      (author : AuthorInfo) (eng : Engagement)
  | repost (id : Nat) (date : Int) (author : AuthorInfo) (eng : Engagement)
      (origAuthor : OriginalAuthor) (origContent origSlug : String)
      (origMedia : MediaInfo) (reposterComment : Option String)
deriving DecidableEq

/-- `sequence_id` of a record. -/
def PostRecord.idOf : PostRecord → Nat
  | .post i _ _ _ _ _ _ => i
  | .repost i _ _ _ _ _ _ _ _ => i

/-- `reposter_comment` of a record (`none` also for regular posts, which
never carry the field). -/
def PostRecord.reposterCommentOf : PostRecord → Option String
  | .post _ _ _ _ _ _ _ => none
  | .repost _ _ _ _ _ _ _ _ rc => rc

/-- `original_post.content` of a repost record (`""` for regular posts). -/
def PostRecord.origContentOf : PostRecord → String
  | .post _ _ _ _ _ _ _ => ""
  | .repost _ _ _ _ _ oc _ _ _ => oc

/-- One iteration of the `process_posts` loop: classify the node and
assemble its record; `none` models an uncaught exception (which aborts the
whole batch in the source).  On the repost branch the `reposter_comment`
field is attached only when the comment is non-empty and its normalization
differs from the original content's. -/
def buildOne (i : Nat) (post : Node) (rand : Int → Int → Int) (now : Int) :
    Option PostRecord :=
  if is_repost post then
    let post_content := get_post_description post
    let author_info := get_profile_info post "Unknown User" true
    let original_author := get_original_author_info post
    let reposter_comment := get_reposter_comment post
    let engagement := get_engagement post
    match get_date (relDateOf post) (some post) rand now with
    | none => none
    | some formatted_date =>
      let content_slug := generate_post_slug post_content
      match get_final_media_info post with
      | none => none
      | some media =>
        let rc :=
          if reposter_comment != "" && normText reposter_comment != normText post_content then
            some reposter_comment
          else none
        some (.repost i formatted_date author_info engagement original_author
          post_content content_slug media rc)
  else
    let author_info := get_profile_info post "Unknown User" false
    let post_content := get_post_description post
    let engagement := get_engagement post
    match get_date (relDateOf post) (some post) rand now with
    | none => none
    | some formatted_date =>
      let post_slug := generate_post_slug post_content
      match get_final_media_info post with
      | none => none
      | some media =>
        some (.post i formatted_date post_content post_slug media author_info engagement)

/-- The `for i, post_container in enumerate(posts)` loop with `id = i`
counting up from the given base. -/
def processAux (rand : Int → Int → Int) (now : Int) : Nat → List Node → Option (List PostRecord)
  | _, [] => some []
  | i, p :: ps =>
    match buildOne i p rand now with
    | none => none
    | some r =>
      match processAux rand now (i + 1) ps with
      | none => none
      | some rs => some (r :: rs)

/-- All `div.feed-shared-update-v2` containers of the document, before the
`MAX_POSTS` cap. -/
def all_post_containers (soup : Node) : List Node :=
  selectAll soup selPostContainer

/-- `process_posts(soup)`: records for the capped node list, ids starting
at `BASE_ID`. -/
def process_posts (soup : Node) (rand : Int → Int → Int) (now : Int) :
    Option (List PostRecord) :=
  processAux rand now BASE_ID (get_posts soup)

/-! ## Concrete scenario documents -/

/-- Scenario node for C1: header region with the marker phrase
`"Acme Inc reposted this"`, primary author block named
`"Jane DoeJane Doe"`, a single content region. -/
def post1 : Node :=
  .elem "div" ["feed-shared-update-v2"] []
    [.elem "div" ["update-components-header"] []
       [.elem "span" ["update-components-header__text-view"] []
          [.txt "Acme Inc reposted this"]],
     .elem "div" ["update-components-actor__container"] []
       [.elem "span" ["update-components-actor__title"] []
          [.elem "span" [] [("dir", "ltr")] [.txt "Jane DoeJane Doe"]]],
     .elem "div" ["feed-shared-inline-show-more-text"] []
       [.elem "div" ["update-components-text"] []
          [.elem "div" ["break-words"] []
             [.elem "span" [] [("dir", "ltr")] [.txt "Great news everyone"]]]]]

/-- A repost node with a reposter comment distinct from the original
content: marker phrase header, a first content region (`"My take"`)
outside PT3, and the original content inside a PT3 container. -/
def post2 : Node :=
  .elem "div" ["feed-shared-update-v2"] []
    [.elem "span" ["update-components-header__text-view"] [] [.txt "Bob reposted this"],
     .elem "div" ["feed-shared-inline-show-more-text"] []
       [.elem "div" ["update-components-text"] []
          [.elem "div" ["break-words"] []
             [.elem "span" [] [("dir", "ltr")] [.txt "My take"]]]],
     .elem "div" ["pt3"] []
       [.elem "div" ["feed-shared-inline-show-more-text"] []
          [.elem "div" ["update-components-text"] []
             [.elem "div" ["break-words"] []
                [.elem "span" [] [("dir", "ltr")] [.txt "Original content"]]]]]]

/-- A content node with no recognizable region at all. -/
def emptyPost : Node :=
  .elem "div" ["feed-shared-update-v2"] [] []

/-- A document with two empty content nodes. -/
def soupA : Node :=
  .elem "html" [] [] [emptyPost, emptyPost]

/-- A document wrapping `post2`. -/
def soupB : Node :=
  .elem "html" [] [] [post2]

/-- A node carrying a decodable activity URN on a child element
(`id >> 23 = 1`, so the decoded instant is `linkedin_epoch + 1`). -/
def urnPost : Node :=
  .elem "div" ["feed-shared-update-v2"] []
    [.elem "div" [] [("data-urn", "urn:li:activity:8388608")] []]

/-- A node whose likes region reads `"1,204"`. -/
def likesPost : Node :=
  .elem "div" ["feed-shared-update-v2"] []
    [.elem "span" ["social-details-social-counts__reactions-count"] [] [.txt "1,204"]]

/-! ## Claims -/

/-- Claim C1, counterexample.  On a node whose header region carries the
marker phrase `"Acme Inc reposted this"` and whose primary author block is
named `"Jane DoeJane Doe"` (with a single content region), the classifier
does return repost, but the resolved reposting identity is `"Acme Inc"` —
the sanitized text preceding the marker phrase — not `"Jane Doe"` as the
claim states. -/
theorem claim_C1_counterexample :
    is_repost post1 = true ∧
    (get_profile_info post1 "Unknown User" true).name = "Acme Inc" ∧
    "Acme Inc" ≠ "Jane Doe" := by
  refine ⟨by decide, by decide, by decide⟩

/-- Claim C1, amended: for the scenario node the classifier returns repost,
the reposting identity name is `"Acme Inc"` (the sanitized text preceding
the marker phrase), the original-author name is the sanitized primary
author block content (`clean_name "Jane DoeJane Doe" = "Jane Doe"`), and
`reposter_comment` is absent from the assembled record (for every jitter
source and clock). -/
theorem claim_C1 :
    is_repost post1 = true ∧
    (get_profile_info post1 "Unknown User" true).name = "Acme Inc" ∧
    (get_original_author_info post1).name = clean_name "Jane DoeJane Doe" ∧
    clean_name "Jane DoeJane Doe" = "Jane Doe" ∧
    ∀ rand now, (buildOne BASE_ID post1 rand now).map PostRecord.reposterCommentOf
      = some none := by
  refine ⟨by decide, by decide, by decide, by decide, fun rand now => rfl⟩

/-- Claim C4: `get_numeric_value` returns 0 whenever the pattern finds no
match, and otherwise the integer value of the captured group with comma
separators stripped (the capture is always digits and commas, so parsing
cannot fail and nothing is raised); concretely, a node whose likes region
reads `"1,204"` yields `engagement.likes = 1204`. -/
theorem claim_C4 :
    (∀ (text : String) (p : NumPattern),
        searchNum p text.data = none → get_numeric_value text p = 0) ∧
    (∀ (text : String) (p : NumPattern) (g : List Char),
        searchNum p text.data = some g →
        get_numeric_value text p = natOfDigits (g.filter (fun c => c ≠ ','))) ∧
    (get_engagement likesPost).likes = 1204 := by
  refine ⟨?_, ?_, by decide⟩
  · intro text p h
    simp [get_numeric_value, h]
  · intro text p g h
    by_cases ht : text = ""
    · subst ht
      simp [searchNum] at h
    · simp [get_numeric_value, ht, h]

/-- Claim C4, witness: both hypotheses discharged at concrete inputs (a
no-match text, and the `"1,204"` capture). -/
theorem claim_C4_witness :
    get_numeric_value "xyz" .num = 0 ∧
    get_numeric_value "1,204" .num
      = natOfDigits (['1', ',', '2', '0', '4'].filter (fun c => c ≠ ',')) :=
  ⟨claim_C4.1 "xyz" .num (by decide),
   claim_C4.2.1 "1,204" .num ['1', ',', '2', '0', '4'] (by decide)⟩

/-- Claim C5, counterexample.  With relative age `"3d"`, no decodable
identifier and the jitter source answering the upper end of each requested
range (hour jitter 12, minute jitter 59 — both legal `randint` outcomes),
the emitted instant is `now - 3d - 12h - 59min`, which lies outside the
claimed interval `[now - 3d - 12h, now - 3d + 12h]`. -/
theorem claim_C5_counterexample :
    get_date "3d" (some emptyPost) (fun _ hi => hi) 0
      = some (-(3 * dayMs) - 12 * hourMs - 59 * minuteMs) ∧
    ¬(0 - 3 * dayMs - 12 * hourMs ≤ -(3 * dayMs) - 12 * hourMs - 59 * minuteMs) := by
  refine ⟨by decide, by decide⟩

/-- A well-behaved jitter source: `randint(lo, hi)` stays in `[lo, hi]`. -/
def RandOK (rand : Int → Int → Int) : Prop :=
  ∀ lo hi, lo ≤ hi → lo ≤ rand lo hi ∧ rand lo hi ≤ hi

/-- Claim C5, amended: for a node with no decodable opaque identifier and
age string `"3d"`, and every outcome of the jitter source, the resolver
emits `now - (3d + rh·h + rm·min)` with `rh ∈ [-12, 12]`, `rm ∈ [0, 59]`;
this lies in `[now - 3d - 12h - 59min, now - 3d + 12h]` (the extra 59
minutes below the claimed lower bound come from the minute jitter, which is
only ever subtracted) and is never exactly `now`. -/
theorem claim_C5 (rand : Int → Int → Int) (hR : RandOK rand) (now : Int) (c : Node)
    (hc : extract_linkedin_activity_timestamp c now = none) :
    get_date "3d" (some c) rand now
      = some (now - (3 * dayMs + rand (-12) 12 * hourMs + rand 0 59 * minuteMs)) ∧
    now - 3 * dayMs - 12 * hourMs - 59 * minuteMs
      ≤ now - (3 * dayMs + rand (-12) 12 * hourMs + rand 0 59 * minuteMs) ∧
    now - (3 * dayMs + rand (-12) 12 * hourMs + rand 0 59 * minuteMs)
      ≤ now - 3 * dayMs + 12 * hourMs ∧
    now - (3 * dayMs + rand (-12) 12 * hourMs + rand 0 59 * minuteMs) ≠ now := by
  obtain ⟨ha1, ha2⟩ := hR (-12) 12 (by norm_num)
  obtain ⟨hb1, hb2⟩ := hR 0 59 (by norm_num)
  have hrel : get_date_relative "3d" rand now
      = some (now - (3 * dayMs + rand (-12) 12 * hourMs + rand 0 59 * minuteMs)) := rfl
  refine ⟨?_, ?_, ?_, ?_⟩
  · simp only [get_date, hc]
    exact hrel
  · simp only [dayMs, hourMs, minuteMs] at *
    nlinarith
  · simp only [dayMs, hourMs, minuteMs] at *
    nlinarith
  · intro heq
    have h0 : 3 * dayMs + rand (-12) 12 * hourMs + rand 0 59 * minuteMs = 0 := by omega
    simp only [dayMs, hourMs, minuteMs] at h0 ha1 ha2 hb1 hb2
    nlinarith

/-- Claim C5, witness: the amended interval claim at a concrete node, clock
and jitter source (the lower bound of each requested range). -/
theorem claim_C5_witness :
    get_date "3d" (some emptyPost) (fun lo _ => lo) 7
      = some (7 - (3 * dayMs + (fun lo _ => lo : Int → Int → Int) (-12) 12 * hourMs
          + (fun lo _ => lo : Int → Int → Int) 0 59 * minuteMs)) ∧
    7 - 3 * dayMs - 12 * hourMs - 59 * minuteMs
      ≤ 7 - (3 * dayMs + (fun lo _ => lo : Int → Int → Int) (-12) 12 * hourMs
          + (fun lo _ => lo : Int → Int → Int) 0 59 * minuteMs) ∧
    7 - (3 * dayMs + (fun lo _ => lo : Int → Int → Int) (-12) 12 * hourMs
          + (fun lo _ => lo : Int → Int → Int) 0 59 * minuteMs)
      ≤ 7 - 3 * dayMs + 12 * hourMs ∧
    7 - (3 * dayMs + (fun lo _ => lo : Int → Int → Int) (-12) 12 * hourMs
          + (fun lo _ => lo : Int → Int → Int) 0 59 * minuteMs) ≠ 7 :=
  claim_C5 (fun lo _ => lo) (fun lo hi h => ⟨le_refl lo, h⟩) 7 emptyPost (by decide)

/-- Claim C6, counterexample.  Activity id 0 decodes (shift 23 gives offset
0) to exactly the reference epoch, which the source accepts — its bounds
are inclusive (`earliest <= t <= now`), so "strictly between the reference
epoch and the current time" is not what the code checks: the accepted
instant is not strictly above the epoch. -/
theorem claim_C6_counterexample :
    decode_linkedin_timestamp 0 (linkedin_epoch + 1000) = some linkedin_epoch ∧
    ¬(linkedin_epoch < linkedin_epoch) := by
  refine ⟨by decide, by decide⟩

/-- The candidate instants of stage 1, in the order tried (primary width
23, then 22, 24, 25). -/
def decodeCandidates (id_num : Nat) : List Int :=
  [23, 22, 24, 25].map (fun s => linkedin_epoch + Int.ofNat (id_num >>> s))

/-- Claim C6, amended: stage 1 tries the candidate widths in the fixed
order 23, 22, 24, 25 and accepts the first candidate between the reference
epoch and the current time *inclusive* (it yields nothing iff every
candidate fails), and whenever stage 1 succeeds, `get_date` returns its
result unchanged — stage 2 is not consulted. -/
theorem claim_C6 :
    (∀ id_num now,
        decode_linkedin_timestamp id_num now
          = (decodeCandidates id_num).find?
              (fun t => decide (linkedin_epoch ≤ t ∧ t ≤ now))) ∧
    (∀ date_text c rand now t,
        extract_linkedin_activity_timestamp c now = some t →
        get_date date_text (some c) rand now = some t) := by
  constructor
  · intro id_num now
    simp only [decode_linkedin_timestamp, decodeCandidates, List.map, List.find?]
    split_ifs with h23 h22 h24 h25
    · rw [decide_eq_true h23]
    · rw [decide_eq_false h23, decide_eq_true h22]
    · rw [decide_eq_false h23, decide_eq_false h22, decide_eq_true h24]
    · rw [decide_eq_false h23, decide_eq_false h22, decide_eq_false h24,
        decide_eq_true h25]
    · rw [decide_eq_false h23, decide_eq_false h22, decide_eq_false h24,
        decide_eq_false h25]
  · intro date_text c rand now t h
    simp only [get_date, h]

/-- Claim C6, witness: the stage-1 precedence applied at a node carrying a
decodable URN (`id >> 23 = 1`), with an age string that stage 2 would have
handled quite differently. -/
theorem claim_C6_witness :
    get_date "3d" (some urnPost) (fun _ hi => hi) (linkedin_epoch + 5)
      = some (linkedin_epoch + 1) :=
  claim_C6.2 "3d" urnPost (fun _ hi => hi) (linkedin_epoch + 5) (linkedin_epoch + 1)
    (by decide)

/-- Any record `buildOne i …` assembles carries sequence id `i`. -/
theorem buildOne_idOf (i : Nat) (p : Node) (rand : Int → Int → Int) (now : Int)
    (r : PostRecord) (h : buildOne i p rand now = some r) : r.idOf = i := by
  unfold buildOne at h
  split at h
  · split at h
    · exact Option.noConfusion h
    · split at h
      · exact Option.noConfusion h
      · cases h
        rfl
  · split at h
    · exact Option.noConfusion h
    · split at h
      · exact Option.noConfusion h
      · cases h
        rfl

/-- The loop of `process_posts` yields one record per node, with dense ids
counting up from the starting id. -/
theorem processAux_spec (ps : List Node) : ∀ (i : Nat) (rand : Int → Int → Int)
    (now : Int) (rs : List PostRecord), processAux rand now i ps = some rs →
    rs.length = ps.length ∧ ∀ j (hj : j < rs.length), rs[j].idOf = i + j := by
  induction ps with
  | nil =>
    intro i rand now rs h
    simp only [processAux, Option.some.injEq] at h
    subst h
    exact ⟨rfl, fun j hj => absurd hj (by simp)⟩
  | cons p ps ih =>
    intro i rand now rs h
    simp only [processAux] at h
    split at h
    · exact Option.noConfusion h
    · rename_i r hr
      split at h
      · exact Option.noConfusion h
      · rename_i rs2 hrs
        cases h
        obtain ⟨hlen, hids⟩ := ih (i + 1) rand now rs2 hrs
        refine ⟨by simp [hlen], ?_⟩
        intro j hj
        cases j with
        | zero => simpa using buildOne_idOf i p rand now r hr
        | succ k =>
          have hk : k < rs2.length := by
            simp only [List.length_cons] at hj
            omega
          have hx := hids k hk
          simp only [List.getElem_cons_succ]
          rw [hx]
          omega

/-- Claim C8: when a batch run succeeds, the assembled records are one per
node in document order, capped at `MAX_POSTS` — the record count is
`min N MAX_POSTS` for `N` source containers — and sequence ids are exactly
`BASE_ID, BASE_ID + 1, …`, dense and strictly increasing. -/
theorem claim_C8 (soup : Node) (rand : Int → Int → Int) (now : Int)
    (rs : List PostRecord) (h : process_posts soup rand now = some rs) :
    rs.length = min (all_post_containers soup).length MAX_POSTS ∧
    ∀ j (hj : j < rs.length), rs[j].idOf = BASE_ID + j := by
  obtain ⟨hlen, hids⟩ := processAux_spec (get_posts soup) BASE_ID rand now rs h
  refine ⟨?_, hids⟩
  rw [hlen]
  simp [get_posts, all_post_containers, Nat.min_comm]

/-- Claim C8, witness: the id/length property instantiated on a concrete
two-node document. -/
theorem claim_C8_witness :
    ((process_posts soupA (fun _ hi => hi) 5).getD []).length
      = min (all_post_containers soupA).length MAX_POSTS :=
  (claim_C8 soupA (fun _ hi => hi) 5
    ((process_posts soupA (fun _ hi => hi) 5).getD []) (by rfl)).1

/-- A record assembled by `buildOne` satisfies the reposter-comment
distinctness guard. -/
theorem buildOne_comment (i : Nat) (p : Node) (rand : Int → Int → Int) (now : Int)
    (r : PostRecord) (c : String) (h : buildOne i p rand now = some r)
    (hc : r.reposterCommentOf = some c) :
    c ≠ "" ∧ normText c ≠ normText r.origContentOf := by
  unfold buildOne at h
  split at h
  · split at h
    · exact Option.noConfusion h
    · split at h
      · exact Option.noConfusion h
      · cases h
        simp only [PostRecord.reposterCommentOf, PostRecord.origContentOf] at hc ⊢
        split at hc
        · rename_i hcond
          cases hc
          rw [Bool.and_eq_true] at hcond
          obtain ⟨h1, h2⟩ := hcond
          rw [bne_iff_ne] at h1 h2
          exact ⟨h1, h2⟩
        · exact Option.noConfusion hc
  · split at h
    · exact Option.noConfusion h
    · split at h
      · exact Option.noConfusion h
      · cases h
        simp [PostRecord.reposterCommentOf] at hc

/-- The guard of `buildOne_comment`, lifted through the processing loop. -/
theorem processAux_comment (ps : List Node) : ∀ (i : Nat) (rand : Int → Int → Int)
    (now : Int) (rs : List PostRecord), processAux rand now i ps = some rs →
    ∀ r ∈ rs, ∀ c, r.reposterCommentOf = some c →
    c ≠ "" ∧ normText c ≠ normText r.origContentOf := by
  induction ps with
  | nil =>
    intro i rand now rs h
    simp only [processAux, Option.some.injEq] at h
    subst h
    intro r hr
    exact absurd hr (by simp)
  | cons p ps ih =>
    intro i rand now rs h
    simp only [processAux] at h
    split at h
    · exact Option.noConfusion h
    · rename_i r0 hr0
      split at h
      · exact Option.noConfusion h
      · rename_i rs2 hrs
        cases h
        intro r hr c hc
        rcases List.mem_cons.mp hr with hr1 | hr2
        · subst hr1
          exact buildOne_comment i p rand now r c hr0 hc
        · exact ih (i + 1) rand now rs2 hrs r hr2 c hc

/-- Claim C9: on every assembled repost record, if `reposter_comment` is
present then it is non-empty and its case/space/hash-fold normalization
differs from that of `original_post.content`. -/
theorem claim_C9 (soup : Node) (rand : Int → Int → Int) (now : Int)
    (rs : List PostRecord) (h : process_posts soup rand now = some rs) :
    ∀ r ∈ rs, ∀ c, r.reposterCommentOf = some c →
    c ≠ "" ∧ normText c ≠ normText r.origContentOf :=
  processAux_comment (get_posts soup) BASE_ID rand now rs h

/-- The record `process_posts` assembles for `post2`. -/
def rec2 : PostRecord :=
  .repost 1 0 { name := "Unknown User", pic := "", description := "", slug := "unknown-user" }
    { likes := 0, comments := 0, reposts := 0 }
    { name := "", pic := "", slug := "", link := "", description := "" }
    "Original content" "original-content" .noneM (some "My take")

/-- Claim C9, witness: the guard applied to the concrete repost record of
`post2`, whose reposter comment is set. -/
theorem claim_C9_witness :
    "My take" ≠ "" ∧ normText "My take" ≠ normText rec2.origContentOf :=
  claim_C9 soupB (fun _ hi => hi) 0 [rec2] (by decide) rec2 (by decide) "My take" (by decide)

/-- The regular-entry author name element: the span inside the main actor
title. -/
def regNameElem (post : Node) : Option Node :=
  (selectOne post selActorTitle).bind (fun mac => selectOne mac selSpanLtr)

/-- The reposter-entry header name: the captured text before the marker
phrase, when the header region and the phrase are present. -/
def repHeaderName (post : Node) : Option String :=
  (selectOne post selHeader).bind (fun header => searchRepostedBy (nodeText header))

/-- The reposter-entry fallback name element: the title span of the first
actor container. -/
def repNameElem (post : Node) : Option Node :=
  (selectOne post selActorContainer).bind (fun fac => selectOne fac selActorTitleSpan)

/-- With no author name element, the regular entry point keeps the default
name and its slug. -/
theorem gpi_reg_name_slug (post : Node) (dn : String) (h : regNameElem post = none) :
    (get_profile_info post dn false).name = dn ∧
    (get_profile_info post dn false).slug = create_slug dn := by
  unfold regNameElem at h
  unfold get_profile_info
  simp only [Bool.false_eq_true, if_false]
  cases hA : selectOne post selActorTitle with
  | none =>
    simp only [hA]
    constructor <;> (repeat' split) <;> simp_all
  | some mac =>
    rw [hA, Option.some_bind] at h
    simp only [hA, h]
    constructor <;> (repeat' split) <;> simp_all

/-- With no header marker match and no first-actor-container name element,
the reposter entry point keeps the default name and its slug. -/
theorem gpi_rep_name_slug (post : Node) (dn : String) (h1 : repHeaderName post = none)
    (h2 : repNameElem post = none) :
    (get_profile_info post dn true).name = dn ∧
    (get_profile_info post dn true).slug = create_slug dn := by
  unfold repHeaderName at h1
  unfold repNameElem at h2
  unfold get_profile_info
  simp only [if_true]
  have hHP :
      (match selectOne post selHeader with
        | some header =>
          match searchRepostedBy (nodeText header) with
          | some pre =>
            let nm := clean_name (clean pre)
            let ai : AuthorInfo :=
              { name := nm, pic := "", description := "", slug := create_slug nm }
            some (match selectOne header selHeaderImg with
              | some img =>
                (match srcAttr img with
                 | some src => { ai with pic := src }
                 | none => ai)
              | none => ai)
          | none => none
        | none => none) = (none : Option AuthorInfo) := by
    cases hH : selectOne post selHeader with
    | none => rfl
    | some header =>
      rw [hH, Option.some_bind] at h1
      simp only [h1]
  rw [hHP]
  cases hF : selectOne post selActorContainer with
  | none =>
    simp [hF]
  | some fac =>
    rw [hF, Option.some_bind] at h2
    simp only [hF, h2]
    constructor <;> (repeat' split) <;> simp_all

/-- With every author region absent, the regular entry point returns the
full default record. -/
theorem gpi_reg_default (post : Node) (dn : String) (h : regNameElem post = none)
    (h2 : selectOne post selAvatarImage = none)
    (h3 : selectOne post selActorDescription = none)
    (h4 : selAltDescs.findSome? (fun sel => selectOne post sel) = none) :
    get_profile_info post dn false
      = { name := dn, pic := "", description := "", slug := create_slug dn } := by
  unfold regNameElem at h
  unfold get_profile_info
  simp only [Bool.false_eq_true, if_false]
  cases hA : selectOne post selActorTitle with
  | none => simp [hA, h2, h3, h4]
  | some mac =>
    rw [hA, Option.some_bind] at h
    simp [hA, h, h2, h3, h4]

/-- With no header marker match and no actor container at all, the
reposter entry point returns the full default record. -/
theorem gpi_rep_default (post : Node) (dn : String) (h1 : repHeaderName post = none)
    (hF : selectOne post selActorContainer = none) :
    get_profile_info post dn true
      = { name := dn, pic := "", description := "", slug := create_slug dn } := by
  unfold repHeaderName at h1
  unfold get_profile_info
  simp only [if_true]
  cases hH : selectOne post selHeader with
  | none => simp [hH, hF]
  | some header =>
    rw [hH, Option.some_bind] at h1
    simp [hH, h1, hF]

/-- Claim C10: whenever the profile resolver can find no author name
element, the returned record carries name `"Unknown User"` and slug
`"unknown-user"` (not empty strings) in both the regular and the reposter
entry points; and with the picture/description regions also absent those
fields default to the empty string. -/
theorem claim_C10 (post : Node) :
    (regNameElem post = none →
      (get_profile_info post "Unknown User" false).name = "Unknown User" ∧
      (get_profile_info post "Unknown User" false).slug = "unknown-user") ∧
    (repHeaderName post = none → repNameElem post = none →
      (get_profile_info post "Unknown User" true).name = "Unknown User" ∧
      (get_profile_info post "Unknown User" true).slug = "unknown-user") ∧
    (regNameElem post = none → selectOne post selAvatarImage = none →
      selectOne post selActorDescription = none →
      selAltDescs.findSome? (fun sel => selectOne post sel) = none →
      get_profile_info post "Unknown User" false
        = { name := "Unknown User", pic := "", description := "", slug := "unknown-user" }) ∧
    (repHeaderName post = none → selectOne post selActorContainer = none →
      get_profile_info post "Unknown User" true
        = { name := "Unknown User", pic := "", description := "", slug := "unknown-user" }) := by
  have hslug : create_slug "Unknown User" = "unknown-user" := by decide
  refine ⟨?_, ?_, ?_, ?_⟩
  · intro h
    have := gpi_reg_name_slug post "Unknown User" h
    rwa [hslug] at this
  · intro h1 h2
    have := gpi_rep_name_slug post "Unknown User" h1 h2
    rwa [hslug] at this
  · intro h h2 h3 h4
    have := gpi_reg_default post "Unknown User" h h2 h3 h4
    rwa [hslug] at this
  · intro h1 hF
    have := gpi_rep_default post "Unknown User" h1 hF
    rwa [hslug] at this

/-- A node with no date region has an empty relative-date string. -/
theorem relDateOf_empty (post : Node) (h : selectOne post selSubDescription = none) :
    relDateOf post = "" := by
  simp [relDateOf, h]

/-- `get_date` on an empty relative-date string never raises: it returns
the precise URN instant when stage 1 succeeds, and the current instant
otherwise. -/
theorem get_date_empty_total (post : Node) (rand : Int → Int → Int) (now : Int) :
    (get_date "" (some post) rand now).isSome = true := by
  unfold get_date
  cases hx : extract_linkedin_activity_timestamp post now with
  | none =>
    have hrel : get_date_relative "" rand now = some now := rfl
    simp [hx, hrel]
  | some t => simp [hx]

/-- `buildOne` succeeds on any node whose date region is absent and whose
media resolution does not raise. -/
theorem buildOne_total (i : Nat) (p : Node) (rand : Int → Int → Int) (now : Int)
    (hsub : selectOne p selSubDescription = none)
    (hm : get_final_media_info p ≠ none) :
    (buildOne i p rand now).isSome = true := by
  have hrel := relDateOf_empty p hsub
  have hdate := get_date_empty_total p rand now
  rw [← hrel] at hdate
  obtain ⟨d, hd⟩ := Option.isSome_iff_exists.mp hdate
  obtain ⟨m, hm2⟩ := Option.ne_none_iff_exists.mp hm
  unfold buildOne
  split <;> simp [hd, ← hm2]

/-- The processing loop succeeds, with one record per node, whenever every
node in the batch has its date region absent and a non-raising media
resolution. -/
theorem processAux_total (ps : List Node) : ∀ (i : Nat) (rand : Int → Int → Int)
    (now : Int),
    (∀ p ∈ ps, selectOne p selSubDescription = none ∧ get_final_media_info p ≠ none) →
    (processAux rand now i ps).isSome = true ∧
    ((processAux rand now i ps).getD []).length = ps.length := by
  induction ps with
  | nil =>
    intro i rand now _
    simp [processAux]
  | cons p ps ih =>
    intro i rand now h
    obtain ⟨hsub, hm⟩ := h p (by simp)
    have hb := buildOne_total i p rand now hsub hm
    obtain ⟨r, hr⟩ := Option.isSome_iff_exists.mp hb
    have hrest := ih (i + 1) rand now (fun q hq => h q (by simp [hq]))
    obtain ⟨rs2, hrs⟩ := Option.isSome_iff_exists.mp hrest.1
    have hlen := hrest.2
    rw [hrs] at hlen
    simp only [processAux, hr, hrs]
    simp only [Option.getD_some, List.length_cons] at hlen ⊢
    simp [hlen]

/-- Claim C3: each per-field resolver returns its empty/default value when
its target structural region is absent — engagement `(0, 0, 0)`,
description `""`, reposter comment `""`, media `none`, timestamp the
current instant — and a batch of such nodes is processed to completion,
one record per node, none blocking the following ones. -/
theorem claim_C3 :
    (∀ post : Node, selectOne post selLikes = none → selectOne post selComments = none →
      selectOne post selRepostsBtn = none → selectOne post selRepostsAlt = none →
      get_engagement post = { likes := 0, comments := 0, reposts := 0 }) ∧
    (∀ post : Node, selectOne post selPt3 = none →
      selectAllP post selShowMoreText = [] →
      selectOne post selUpdateContentWrapper = none →
      get_post_description post = "") ∧
    (∀ post : Node, selectAllP post selShowMoreText = [] →
      selectAllP post selCommentary = [] →
      get_reposter_comment post = "") ∧
    (∀ post : Node, media_is_video post = false → media_is_carousel post = false →
      get_images_info post = [] → get_final_media_info post = some .noneM) ∧
    (∀ (post : Node) (rand : Int → Int → Int) (now : Int),
      extract_linkedin_activity_timestamp post now = none →
      selectOne post selSubDescription = none →
      get_date (relDateOf post) (some post) rand now = some now) ∧
    (∀ (soup : Node) (rand : Int → Int → Int) (now : Int),
      (∀ p ∈ get_posts soup,
        selectOne p selSubDescription = none ∧ get_final_media_info p ≠ none) →
      (process_posts soup rand now).isSome = true ∧
      ((process_posts soup rand now).getD []).length = (get_posts soup).length) := by
  refine ⟨?_, ?_, ?_, ?_, ?_, ?_⟩
  · intro post h1 h2 h3 h4
    simp [get_engagement, h1, h2, h3, h4]
  · intro post hpt3 hsm hwrap
    have hsel : selectOne post selShowMoreText = none := by
      simp [selectOne, selectAll, hsm]
    simp [get_post_description, hpt3, hsm, hwrap, hsel]
  · intro post hsm hcom
    simp [get_reposter_comment, hsm, hcom]
  · intro post hv hc hi
    simp [get_final_media_info, hv, hc, hi]
  · intro post rand now hx hsub
    rw [relDateOf_empty post hsub]
    have hrel : get_date_relative "" rand now = some now := rfl
    simp [get_date, hx, hrel]
  · intro soup rand now h
    exact processAux_total (get_posts soup) BASE_ID rand now h

/-- Claim C3, witness: the engagement default at a bare node, and a
two-node batch of bare nodes processed to completion. -/
theorem claim_C3_witness :
    get_engagement emptyPost = { likes := 0, comments := 0, reposts := 0 } ∧
    (process_posts soupA (fun lo _ => lo) 3).isSome = true ∧
    ((process_posts soupA (fun lo _ => lo) 3).getD []).length
      = (get_posts soupA).length :=
  ⟨claim_C3.1 emptyPost (by decide) (by decide) (by decide) (by decide),
   (claim_C3.2.2.2.2.2 soupA (fun lo _ => lo) 3 (by decide)).1,
   (claim_C3.2.2.2.2.2 soupA (fun lo _ => lo) 3 (by decide)).2⟩

/-- Every character the slug core emits is a slug character or a hyphen. -/
theorem slugCoreAux_chars (l : List Char) : ∀ (b : Bool) (c : Char),
    c ∈ slugCoreAux l b → isSlugChar c = true ∨ c = '-' := by
  induction l with
  | nil =>
    intro b c hc
    simp [slugCoreAux] at hc
  | cons a as ih =>
    intro b c hc
    simp only [slugCoreAux] at hc
    by_cases ha : isSlugChar a = true
    · rw [if_pos ha] at hc
      rcases List.mem_cons.mp hc with h1 | h2
      · exact Or.inl (h1 ▸ ha)
      · exact ih false c h2
    · rw [if_neg ha] at hc
      by_cases hb : b = true
      · rw [if_pos hb] at hc
        exact ih true c hc
      · rw [if_neg hb] at hc
        rcases List.mem_cons.mp hc with h1 | h2
        · exact Or.inr h1
        · exact ih true c h2

/-- The head of a `dropWhile` result falsifies the predicate. -/
theorem dropWhile_head_not (p : Char → Bool) (l : List Char) (c : Char) (cs : List Char)
    (h : l.dropWhile p = c :: cs) : p c = false := by
  induction l with
  | nil => simp [List.dropWhile] at h
  | cons a as ih =>
    rw [List.dropWhile_cons] at h
    by_cases ha : p a = true
    · rw [if_pos ha] at h
      exact ih h
    · rw [if_neg ha] at h
      cases h
      simpa using ha

/-- `stripHyphens` never starts with a hyphen. -/
theorem stripHyphens_head (l : List Char) : (stripHyphens l).head? ≠ some '-' := by
  unfold stripHyphens
  cases hm : l.dropWhile (fun c => c == '-') with
  | nil => simp
  | cons a as =>
    have ha : (a == '-') = false := dropWhile_head_not _ l a as hm
    have hsplit := List.takeWhile_append_dropWhile (p := fun c : Char => c == '-')
      (l := (a :: as).reverse)
    have h2 := congrArg List.reverse hsplit
    rw [List.reverse_append, List.reverse_reverse] at h2
    cases hr : ((a :: as).reverse.dropWhile (fun c => c == '-')).reverse with
    | nil => simp [hr]
    | cons b bs =>
      rw [hr] at h2
      have hb : b = a := by
        have := congrArg List.head? h2
        simpa using this
      subst hb
      simp only [hr, List.head?_cons, ne_eq, Option.some.injEq]
      intro hcontra
      rw [hcontra] at ha
      simp at ha

/-- `stripHyphens` never ends with a hyphen. -/
theorem stripHyphens_last (l : List Char) : (stripHyphens l).getLast? ≠ some '-' := by
  unfold stripHyphens
  rw [List.getLast?_reverse]
  cases hd : (l.dropWhile (fun c => c == '-')).reverse.dropWhile (fun c => c == '-') with
  | nil => simp
  | cons a as =>
    have ha := dropWhile_head_not _ _ a as hd
    simp only [List.head?_cons, ne_eq, Option.some.injEq]
    intro hcontra
    rw [hcontra] at ha
    simp at ha

/-- `stripHyphens` only removes characters. -/
theorem mem_stripHyphens (l : List Char) (c : Char) (hc : c ∈ stripHyphens l) : c ∈ l := by
  unfold stripHyphens at hc
  rw [List.mem_reverse] at hc
  have h1 := (List.dropWhile_sublist _).mem hc
  rw [List.mem_reverse] at h1
  exact (List.dropWhile_sublist _).mem h1

/-- Taking a positive-length prefix keeps the head. -/
theorem head?_take (n : Nat) (hn : 0 < n) (l : List Char) : (l.take n).head? = l.head? := by
  cases n with
  | zero => omega
  | succ m => cases l <;> simp

/-- Claim C7, counterexample input: 399 `a`s, a space, and a `b` — the
pre-truncation slug is 399 `a`s, a hyphen and a `b`, and the 400-character
truncation cuts exactly after the hyphen. -/
def slugCex : String :=
  ⟨List.replicate 399 'a' ++ [' ', 'b']⟩

/-- Claim C7, counterexample: the truncated slug of `slugCex` ends in a
hyphen, refuting "never a trailing hyphen" (the source strips outer
hyphens before truncating, so truncation can re-expose one). -/
theorem claim_C7_counterexample :
    (create_slug slugCex).data.getLast? = some '-' := by decide

/-- Claim C7, amended: `create_slug` is a pure function whose output
contains only lowercase alphanumerics and hyphens, never starts with a
hyphen, has length at most the 400-character bound, and is empty on empty
input; it never *ends* with a hyphen either, provided the pre-truncation
slug fits within the bound (truncation at the bound can re-expose a
trailing hyphen, as the counterexample shows). -/
theorem claim_C7 (s : String) :
    (∀ c ∈ (create_slug s).data, isSlugChar c = true ∨ c = '-') ∧
    (create_slug s).data.head? ≠ some '-' ∧
    (create_slug s).length ≤ 400 ∧
    create_slug "" = "" ∧
    ((stripHyphens (slugCore (s.data.map Char.toLower))).length ≤ 400 →
      (create_slug s).data.getLast? ≠ some '-') ∧
    (∀ t, s = t → create_slug s = create_slug t) := by
  by_cases hs : s = ""
  · subst hs
    refine ⟨?_, ?_, ?_, rfl, ?_, ?_⟩
    · intro c hc
      simp [create_slug] at hc
    · simp [create_slug]
    · simp [create_slug]
    · intro _
      simp [create_slug]
    · intro t ht
      rw [ht]
  · have hdata : (create_slug s).data
        = (stripHyphens (slugCore (s.data.map Char.toLower))).take 400 := by
      simp [create_slug, hs]
    refine ⟨?_, ?_, ?_, rfl, ?_, ?_⟩
    · intro c hc
      rw [hdata] at hc
      exact slugCoreAux_chars _ false c (mem_stripHyphens _ c (List.mem_of_mem_take hc))
    · rw [hdata, head?_take 400 (by omega)]
      exact stripHyphens_head _
    · have : (create_slug s).length = (create_slug s).data.length := rfl
      rw [this, hdata, List.length_take]
      omega
    · intro hble
      rw [hdata, List.take_of_length_le hble]
      exact stripHyphens_last _
    · intro t ht
      rw [ht]

/-- Claim C7, witness: the conditional no-trailing-hyphen property at a
concrete short input. -/
theorem claim_C7_witness :
    (create_slug "Hello, World").data.getLast? ≠ some '-' :=
  (claim_C7 "Hello, World").2.2.2.2.1 (by decide)

/-- The shape every `clean_name` step shares: each application either
returns its input unchanged or strictly shortens it. -/
def ShrinkFix (f : List Char → List Char) : Prop :=
  ∀ s, f s = s ∨ (f s).length < s.length

/-- `ShrinkFix` is closed under composition. -/
theorem ShrinkFix.comp {f g : List Char → List Char} (hf : ShrinkFix f)
    (hg : ShrinkFix g) : ShrinkFix (fun s => g (f s)) := by
  intro s
  show g (f s) = s ∨ (g (f s)).length < s.length
  rcases hf s with h1 | h1
  · rw [h1]
    exact hg s
  · rcases hg (f s) with h2 | h2
    · rw [h2]
      exact Or.inr h1
    · exact Or.inr (h2.trans h1)

/-- STEP 1 either leaves the string alone or truncates it strictly. -/
theorem cn_step1_shrink : ShrinkFix cn_step1 := by
  intro s
  unfold cn_step1
  cases hf : (List.range s.length).find? (fun i => sepHere (s.drop i)) with
  | none => exact Or.inl rfl
  | some i =>
    right
    have hi := List.mem_of_find?_eq_some hf
    rw [List.mem_range] at hi
    rw [List.length_take]
    omega

/-- STEP 2 either leaves the string alone or halves it. -/
theorem cn_step2_shrink : ShrinkFix cn_step2 := by
  intro s
  unfold cn_step2
  by_cases hcond : (s.length % 2 == 0 && s.take (s.length / 2) == s.drop (s.length / 2)) = true
  · rw [if_pos hcond]
    by_cases h0 : s.length = 0
    · left
      rw [List.length_eq_zero.mp h0]
      rfl
    · right
      rw [List.length_take]
      omega
  · rw [if_neg hcond]
    exact Or.inl rfl

/-- `joinWords` of a cons is at most the word plus a separator plus the
rest. -/
theorem joinWords_cons_le (w : List Char) (ws : List (List Char)) :
    (joinWords (w :: ws)).length ≤ w.length + 1 + (joinWords ws).length := by
  cases ws with
  | nil => simp [joinWords]
  | cons x xs =>
    simp [joinWords]
    omega

/-- Splitting on whitespace and re-joining with single spaces never makes
the string longer (the accumulator holds the word being read). -/
theorem joinWords_splitWsAux_le (s : List Char) : ∀ acc : List Char,
    (joinWords (splitWsAux s acc)).length ≤ s.length + acc.length := by
  induction s with
  | nil =>
    intro acc
    simp only [splitWsAux]
    by_cases ha : acc.isEmpty = true
    · rw [if_pos ha]
      simp [joinWords]
    · rw [if_neg ha]
      simp [joinWords]
  | cons c cs ih =>
    intro acc
    simp only [splitWsAux]
    by_cases hc : isSpaceChar c = true
    · rw [if_pos hc]
      by_cases ha : acc.isEmpty = true
      · rw [if_pos ha]
        have h1 := ih []
        simp only [List.length_nil, Nat.add_zero] at h1
        simp only [List.length_cons]
        omega
      · rw [if_neg ha]
        have h1 := joinWords_cons_le acc.reverse (splitWsAux cs [])
        have h2 := ih []
        simp only [List.length_reverse] at h1
        simp only [List.length_nil, Nat.add_zero] at h2
        simp only [List.length_cons]
        omega
    · rw [if_neg hc]
      have h1 := ih (c :: acc)
      simp only [List.length_cons] at h1 ⊢
      omega

/-- `joinWords` distributes over append of nonempty lists, with one
separator in between. -/
theorem joinWords_split (l1 l2 : List (List Char)) (h1 : l1 ≠ []) (h2 : l2 ≠ []) :
    joinWords (l1 ++ l2) = joinWords l1 ++ ' ' :: joinWords l2 := by
  induction l1 with
  | nil => exact absurd rfl h1
  | cons w ws ih =>
    cases ws with
    | nil =>
      cases l2 with
      | nil => exact absurd rfl h2
      | cons x xs => simp [joinWords]
    | cons y ys =>
      show w ++ ' ' :: joinWords ((y :: ys) ++ l2)
        = (w ++ ' ' :: joinWords (y :: ys)) ++ ' ' :: joinWords l2
      rw [ih (by simp)]
      simp

/-- STEP 3 either leaves the string alone or strictly shortens it (the
kept half re-joined is strictly shorter than the full join, which is at
most the input length). -/
theorem cn_step3_shrink : ShrinkFix cn_step3 := by
  intro s
  unfold cn_step3
  by_cases hcond : (decide ((splitWs s).length ≥ 2) &&
      (splitWs s).take ((splitWs s).length / 2) == (splitWs s).drop ((splitWs s).length / 2)) = true
  · rw [if_pos hcond]
    rw [Bool.and_eq_true, decide_eq_true_eq] at hcond
    obtain ⟨hlen, _⟩ := hcond
    right
    have htake : (splitWs s).take ((splitWs s).length / 2) ≠ [] := by
      intro hc
      have hl := congrArg List.length hc
      rw [List.length_take] at hl
      simp only [List.length_nil] at hl
      omega
    have hdrop : (splitWs s).drop ((splitWs s).length / 2) ≠ [] := by
      intro hc
      have hl := congrArg List.length hc
      rw [List.length_drop] at hl
      simp only [List.length_nil] at hl
      omega
    have hsplit : joinWords (splitWs s)
        = joinWords ((splitWs s).take ((splitWs s).length / 2))
          ++ ' ' :: joinWords ((splitWs s).drop ((splitWs s).length / 2)) := by
      conv_lhs => rw [← List.take_append_drop ((splitWs s).length / 2) (splitWs s)]
      exact joinWords_split _ _ htake hdrop
    have hle : (joinWords (splitWs s)).length ≤ s.length := by
      have := joinWords_splitWsAux_le s []
      simpa [splitWs] using this
    have hstrict := congrArg List.length hsplit
    simp only [List.length_append, List.length_cons] at hstrict
    omega
  · rw [if_neg hcond]
    exact Or.inl rfl

/-- STEP 4 either leaves the string alone or keeps a period of at most
half its length. -/
theorem cn_step4_shrink : ShrinkFix cn_step4 := by
  intro s
  unfold cn_step4
  cases hf : (List.range' 1 (s.length / 2)).find? (fun d => periodAt s d) with
  | none => exact Or.inl rfl
  | some d =>
    right
    have hmem := List.mem_of_find?_eq_some hf
    rw [List.mem_range'_1] at hmem
    rw [List.length_take]
    omega

/-- `takeWhile` strictly shortens a list containing a predicate
violation. -/
theorem takeWhile_lt_of_mem_not {p : Char → Bool} {l : List Char} {a : Char}
    (ha : a ∈ l) (hpa : p a = false) : (l.takeWhile p).length < l.length := by
  induction l with
  | nil => simp at ha
  | cons c cs ih =>
    rw [List.takeWhile_cons]
    by_cases hc : p c = true
    · rw [if_pos hc]
      rcases List.mem_cons.mp ha with h1 | h2
      · subst h1
        rw [hpa] at hc
        cases hc
      · simp only [List.length_cons]
        have := ih h2
        omega
    · rw [if_neg hc]
      simp

/-- `stripL` only removes characters from the ends. -/
theorem stripL_sublist (l : List Char) : List.Sublist (stripL l) l := by
  unfold stripL
  have h1 : List.Sublist (l.dropWhile isSpaceChar) l := List.dropWhile_sublist _
  have h2 : List.Sublist ((l.dropWhile isSpaceChar).reverse.dropWhile isSpaceChar)
      (l.dropWhile isSpaceChar).reverse := List.dropWhile_sublist _
  have h3 := h2.reverse
  rw [List.reverse_reverse] at h3
  exact h3.trans h1

/-- `stripL` is identity-or-shrinking. -/
theorem stripL_shrink : ShrinkFix stripL := by
  intro s
  by_cases h : (stripL s).length = s.length
  · exact Or.inl ((stripL_sublist s).eq_of_length h)
  · right
    have := (stripL_sublist s).length_le
    omega

/-- STEP 5 part 1 is identity-or-shrinking (the prefix before a present
bullet is strictly shorter, and the strip never grows it). -/
theorem cn_step5a_shrink : ShrinkFix cn_step5a := by
  intro s
  unfold cn_step5a
  by_cases hc : s.contains '•' = true
  · rw [if_pos hc]
    right
    have hmem : '•' ∈ s := by simpa using hc
    have h1 := takeWhile_lt_of_mem_not (p := fun c => decide (c ≠ '•')) hmem (by simp)
    have h2 := (stripL_sublist (s.takeWhile (fun c => decide (c ≠ '•')))).length_le
    omega
  · rw [if_neg hc]
    exact Or.inl rfl

/-- A successful prefix test bounds the prefix length. -/
theorem isPrefixL_length (pre : List Char) : ∀ l : List Char,
    isPrefixL pre l = true → pre.length ≤ l.length := by
  induction pre with
  | nil =>
    intro l _
    simp
  | cons p ps ih =>
    intro l h
    cases l with
    | nil => simp [isPrefixL] at h
    | cons c cs =>
      simp only [isPrefixL, Bool.and_eq_true] at h
      have := ih cs h.2
      simp only [List.length_cons]
      omega

/-- STEP 5 part 2 is identity-or-shrinking. -/
theorem cn_step5b_shrink : ShrinkFix cn_step5b := by
  intro s
  cases hf : infixIdx s " at ".data with
  | none =>
    left
    unfold cn_step5b
    rw [hf]
  | some i =>
    right
    have hcb : cn_step5b s = stripL (s.take i) := by
      unfold cn_step5b
      rw [hf]
    rw [hcb]
    have hp := List.find?_some hf
    have hlen := isPrefixL_length _ _ hp
    have h4 : (" at ".data).length = 4 := by decide
    rw [h4, List.length_drop] at hlen
    have h2 := (stripL_sublist (s.take i)).length_le
    rw [List.length_take] at h2
    omega

/-- The whole sanitizer pipeline is identity-or-shrinking. -/
theorem cleanNameL_shrink : ShrinkFix cleanNameL := by
  have h := (((((cn_step1_shrink.comp cn_step2_shrink).comp cn_step3_shrink).comp
    cn_step4_shrink).comp cn_step5a_shrink).comp cn_step5b_shrink).comp stripL_shrink
  intro s
  exact h s

/-- `clean_name` on strings: identity or strictly shorter. -/
theorem clean_name_shrink (s : String) :
    clean_name s = s ∨ (clean_name s).length < s.length := by
  by_cases hs : s = ""
  · subst hs
    exact Or.inl rfl
  · unfold clean_name
    rw [if_neg hs]
    rcases cleanNameL_shrink s.data with h | h
    · left
      cases s with
      | mk d =>
        simp only [String.data] at h
        rw [h]
    · right
      have h1 : (String.mk (cleanNameL s.data)).length = (cleanNameL s.data).length := rfl
      have h2 : s.length = s.data.length := rfl
      omega

/-- Iterating `clean_name` length-many times reaches a fixed point. -/
theorem clean_name_iter (n : Nat) : ∀ s : String, s.length ≤ n →
    clean_name (clean_name^[n] s) = clean_name^[n] s := by
  induction n with
  | zero =>
    intro s hs
    have h0 : s = "" := by
      cases s with
      | mk d =>
        have hd : d.length = 0 := Nat.le_zero.mp hs
        rw [List.length_eq_zero.mp hd]
    subst h0
    simp only [Function.iterate_zero_apply]
    rfl
  | succ n ih =>
    intro s hs
    by_cases h : clean_name s = s
    · rw [Function.iterate_fixed h]
      exact h
    · have hlt := (clean_name_shrink s).resolve_left h
      rw [Function.iterate_succ_apply]
      exact ih (clean_name s) (by omega)

/-- Claim C2, counterexample: `clean_name` is not idempotent.  On
`"a a a a"` the word-halving step fires once, leaving `"a a"`, and a second
application halves again to `"a"`. -/
theorem claim_C2_counterexample :
    clean_name (clean_name "a a a a") ≠ clean_name "a a a a" := by decide

/-- Claim C2, amended: `clean_name` is not idempotent in general; instead,
every application either returns its input unchanged or strictly shortens
it, so iterating `clean_name` at most `length`-many times reaches a fixed
point (on which one more application is the identity). -/
theorem claim_C2 (s : String) :
    (clean_name s = s ∨ (clean_name s).length < s.length) ∧
    clean_name (clean_name^[s.length] s) = clean_name^[s.length] s :=
  ⟨clean_name_shrink s, clean_name_iter s.length s le_rfl⟩

/-- Claim C10, witness: all four default statements at a concrete node
with no author regions. -/
theorem claim_C10_witness :
    ((get_profile_info emptyPost "Unknown User" false).name = "Unknown User" ∧
      (get_profile_info emptyPost "Unknown User" false).slug = "unknown-user") ∧
    ((get_profile_info emptyPost "Unknown User" true).name = "Unknown User" ∧
      (get_profile_info emptyPost "Unknown User" true).slug = "unknown-user") ∧
    get_profile_info emptyPost "Unknown User" false
      = { name := "Unknown User", pic := "", description := "", slug := "unknown-user" } ∧
    get_profile_info emptyPost "Unknown User" true
      = { name := "Unknown User", pic := "", description := "", slug := "unknown-user" } :=
  ⟨(claim_C10 emptyPost).1 (by decide),
   (claim_C10 emptyPost).2.1 (by decide) (by decide),
   (claim_C10 emptyPost).2.2.1 (by decide) (by decide) (by decide) (by decide),
   (claim_C10 emptyPost).2.2.2 (by decide) (by decide)⟩
